import Mathlib

/-!
# Verification of the ai-mor.me async job pipeline (app/main.py and collaborators)

A shallow embedding of the Redis-backed six-stage date-planning pipeline:
the job orchestrator `process_dual_profile_pipeline`, the progress/result
gateway (`get_date_plan_progress`, `cancel_date_plan`), the progress writer
`update_redis_progress` (and its Qloo-visibility variant), the context
container (`app/utils/context_container.py`), and the step-1 profile
processing stack (`app/services/profile_processor.py` /
`profile_analyzer_optimized.py`).

The durable store is modelled per `request_id`: one slot for each key family
(request record, progress document, result document, completion marker,
processing lock) together with the TTL passed at each write.  External
collaborators (OpenAI reasoning, Qloo, OCR) are modelled by an `Env` record
that fixes the outcome of each external call site; the orchestrator is a
pure function from `Env × Store` to the final `Store` plus a trace of
observable effects (store writes, lock transitions, external calls,
context-container stores).  Payloads of external services are abstracted to
the fields the orchestrator reads; numeric preview formatting is abstracted
to fixed strings (no claim depends on preview text).
-/

set_option maxHeartbeats 1000000

namespace Aimor

/-- Job status enum of the Progress Document
(`starting`, `processing`, `complete`, `error`, `cancelled`). -/
inductive JobStatus where
  | starting
  | processing
  | complete
  | error
  | cancelled
deriving DecidableEq, Repr

/-- The context object of a submission after pydantic `.dict()`: all five
keys of `ContextInput` (app/models/schemas.py) are present, each possibly
`None`.  `none` models a JSON `null` value. -/
structure SubmittedCtx where
  location : Option String
  time_of_day : Option String
  season : Option String
  duration : Option String
  date_type : Option String
deriving DecidableEq, Repr

/-- A normalized context as produced by
`ContextContainer._normalize_context`. -/
structure Ctx where
  location : String
  time_of_day : String
  season : String
  duration : String
  date_type : String
deriving DecidableEq, Repr

/-- Python `str(x)` for `x = context.get(key)` where the key is always
present (pydantic dict): `str(None) = "None"`. -/
def pyStr (o : Option String) : String :=
  match o with
  | some s => s
  | none => "None"

/-- Python `str.lower()`, modelled character-wise (executable, unlike
`String.toLower` which does not reduce in the kernel). -/
def pyLower (s : String) : String := String.mk (s.data.map Char.toLower)

/-- Python whitespace for `str.strip()`. -/
def isPySpace (c : Char) : Bool := c = ' ' ∨ c = '\t' ∨ c = '\n' ∨ c = '\r'

/-- Python `str.strip()`, modelled character-wise. -/
def pyStrip (s : String) : String :=
  String.mk (((s.data.dropWhile isPySpace).reverse.dropWhile isPySpace).reverse)

/-- `ContextContainer._detect_current_season` depends on the wall clock; the
submission-month is threaded as a parameter (month 1-12). -/
def detect_season (month : Nat) : String :=
  if month = 3 ∨ month = 4 ∨ month = 5 then "spring"
  else if month = 6 ∨ month = 7 ∨ month = 8 then "summer"
  else if month = 9 ∨ month = 10 ∨ month = 11 then "autumn"
  else "winter"

/-- `ContextContainer._normalize_context` (context_container.py lines 26-42):
lower-case and strip `location`, `time_of_day`, `season`, `date_type`, strip
`duration`; the season default applies only when the key is absent, which
never happens for a pydantic-built dict, so a `null` season becomes the
string `"none"`; a `location` in `{"", "unknown", "none"}` is replaced by
`"amsterdam"`. -/
def normalize_context (c : SubmittedCtx) : Ctx :=
  let loc := pyStrip (pyLower (pyStr c.location))
  { location :=
      if loc = "" ∨ loc = "unknown" ∨ loc = "none" then "amsterdam" else loc
    time_of_day := pyStrip (pyLower (pyStr c.time_of_day))
    season := pyStrip (pyLower (pyStr c.season))
    duration := pyStrip (pyStr c.duration)
    date_type := pyStrip (pyLower (pyStr c.date_type)) }

/-- One record of the Progress Document `steps` map. -/
structure StepRec where
  name : String
  status : String
  duration : Option Nat
  preview : String
deriving DecidableEq, Repr

/-- The fixed six-entry `steps` map of the Progress Document. -/
structure Steps where
  s1 : StepRec
  s2 : StepRec
  s3 : StepRec
  s4 : StepRec
  s5 : StepRec
  s6 : StepRec
deriving DecidableEq, Repr

/-- Dict update `progress["steps"][key] = f(...)`; an unknown key leaves the
map unchanged (mirrors the `if step_status in progress["steps"]` guard). -/
def Steps.update (m : Steps) (key : String) (f : StepRec → StepRec) : Steps :=
  if key = "1" then { m with s1 := f m.s1 }
  else if key = "2" then { m with s2 := f m.s2 }
  else if key = "3" then { m with s3 := f m.s3 }
  else if key = "4" then { m with s4 := f m.s4 }
  else if key = "5" then { m with s5 := f m.s5 }
  else if key = "6" then { m with s6 := f m.s6 }
  else m

/-- Whether `key in progress["steps"]`. -/
def Steps.hasKey (key : String) : Bool :=
  key = "1" ∨ key = "2" ∨ key = "3" ∨ key = "4" ∨ key = "5" ∨ key = "6"

/-! ## Stage payloads

Each external stage result is abstracted to exactly the fields the
orchestrator reads.  `Tagged` wraps a payload with the context-preservation
keys that `ContextContainer` injects into the (shared, mutable) output dict:
`original_context`, `preserved_context`,
`processing_metadata["input_context"]`,
`processing_metadata["context_preserved"]` and
`processing_metadata["context_container_used"]`. -/

/-- A stage output dict together with the context keys the container
injects. -/
structure Tagged (α : Type) where
  val : α
  original_context : Option Ctx := none
  preserved_context : Option Ctx := none
  meta_input_context : Option Ctx := none
  meta_context_preserved : Bool := false
  meta_container_used : Bool := false
deriving DecidableEq, Repr

/-- The step-1 analysis dict, abstracted to the failure flag of
`_fallback_analysis` (`processing_metadata["fallback_used"]` /
`error_reason`); the psychological payload itself is opaque to the
orchestrator. -/
structure Analysis where
  fallback_used : Bool
  error_reason : Option String
deriving DecidableEq, Repr

/-- Return value of `ProfileProcessor.process_profile_with_context`:
`success` is `False` exactly for `_empty_profile_response` (no text
extracted), in which case `analysis` is the empty dict (`none`). -/
structure ProfileResult where
  success : Bool
  error : Option String
  input_text : String
  analysis : Option Analysis
deriving DecidableEq, Repr

/-- Step-2 result of `ProfileEnricher.process_psychological_profile`,
abstracted to the fields read in main.py lines 913-946. -/
structure EnrichResult where
  success : Bool
  cross_domain_count : Nat
  categories : List String
  total_new_discoveries : Nat
  user_location : String
deriving DecidableEq, Repr

/-- Step-3/4 result of `DateIntelligenceEngine.create_intelligent_date_plan`,
abstracted to the fields read in main.py lines 973-984. -/
structure DatePlan where
  error : Option String
  theme : String
deriving DecidableEq, Repr

/-- Step-5 result of `VenueDiscoverer.discover_venues_for_date_plan`,
abstracted to the counts read in main.py lines 1016-1042. -/
structure VenuePlan where
  venue_count : Nat
  query_count : Nat
  total_venues_selected : Nat
deriving DecidableEq, Repr

/-- Step-6 result of `FinalIntelligenceOptimizer.optimize_complete_date_plan`,
abstracted to the `date` section fields read in main.py lines 1073-1077. -/
structure FinalPlan where
  activities_count : Nat
  location_city : Option String
  total_duration : String
deriving DecidableEq, Repr

/-- The dict returned by `extract_qloo_insights_for_judges`
(main.py lines 692-732), modelled as an association list from its
top-level keys to their (numeric) leaf entries.  The top level holds
exactly five sub-dicts and no scalar entry; the totals live one level
down. -/
def QlooInsights : Type := List (String × List (String × Nat))

instance : DecidableEq QlooInsights := by
  unfold QlooInsights
  infer_instance

instance : Repr QlooInsights := by
  unfold QlooInsights
  infer_instance

/-- Python `d[key]` on the top level of the insights dict, as used on
main.py lines 1114 and 1125-1127: `none` models a `KeyError`. -/
def qlooTopGet (d : QlooInsights) (key : String) : Option (List (String × Nat)) :=
  (List.find? (fun e => e.1 == key) d).map (fun e => e.2)

/-- `extract_qloo_insights_for_judges` (main.py lines 624-732).  The entity
and venue enumeration heuristics are summarized by counts; the five
top-level keys and the nesting of the totals are exactly those of the
returned dict literal (lines 692-732). -/
def extract_qloo_insights_for_judges (eA eB : EnrichResult) (vp : VenuePlan) :
    QlooInsights :=
  let entities := eA.cross_domain_count + eB.cross_domain_count
  let venues := vp.venue_count
  let api_calls := (eA.categories ++ eB.categories).length * 2 + vp.query_count
  [("qloo_integration_summary",
      [("total_qloo_powered_insights", entities + venues)]),
   ("cultural_entities_discovered",
      [("total_entities_discovered", entities)]),
   ("venue_recommendations",
      [("total_venues_analyzed", venues)]),
   ("qloo_api_usage",
      [("total_qloo_api_calls", api_calls)]),
   ("judge_demonstration", [])]

/-! ## Documents and the durable store -/

/-- The Result Document (success or error form), abstracted to the fields
the read path serves and the claims mention. -/
structure ResultDoc where
  success : Bool
  message : Option String := none
  final_date_plan : Option (Tagged FinalPlan) := none
  qloo_cultural_intelligence : Option QlooInsights := none
  total_time_seconds : Nat := 0
  error : Option String := none
  detail : Option String := none
  failed_at_step : Option Nat := none
deriving DecidableEq, Repr

/-- The Progress Document (main.py lines 304-326 plus the fields added
later by the orchestrator and the gateway). -/
structure Progress where
  status : JobStatus
  overall_progress : Nat
  current_step : Nat
  steps : Steps
  cultural_previews : List String
  eta_seconds : Nat
  processing_start : Nat
  last_updated : Nat
  results_embedded : Bool := false
  final_date_plan_embedded : Option ResultDoc := none
  embedded_timestamp : Option Nat := none
  final_results_available : Option Bool := none
  complete_date_plan : Option ResultDoc := none
  results_message : Option String := none
  results_source : Option String := none
  elapsed_seconds : Option Nat := none
  qloo_step2_details : Bool := false
  qloo_step5_details : Bool := false
deriving DecidableEq, Repr

/-- The Request Record stored at submission (`request:{id}`), abstracted to
the parsed `DatePlanRequest` payload. -/
structure ReqRecord where
  profile_a_text : Option String
  profile_a_image : Option String
  profile_b_text : Option String
  profile_b_image : Option String
  context : SubmittedCtx
deriving DecidableEq, Repr

/-- The durable store restricted to one `request_id`: one slot per Redis key
family, with the TTL (seconds) passed at the latest write of each slot. -/
structure Store where
  request : Option ReqRecord := none
  request_ttl : Nat := 0
  progress : Option Progress := none
  progress_ttl : Nat := 0
  result : Option ResultDoc := none
  result_ttl : Nat := 0
  completed : Bool := false
  completed_ttl : Nat := 0
  lock : Bool := false
deriving DecidableEq, Repr

/-! ## External-call outcomes and the effect trace -/

/-- Outcome of one external call site: a returned value, or an exception
propagating to the orchestrator's top-level handler. -/
inductive CallRes (α : Type) where
  | ok (val : α)
  | raises
deriving DecidableEq, Repr

/-- Outcome of one reasoning call inside the speed-optimized profile
analyzer: a structurally valid response, or any of timeout / rate limit /
malformed output / invalid structure (all of which the analyzer absorbs
into `_fallback_analysis`). -/
inductive ReasonRes where
  | valid
  | invalid (reason : String)
deriving DecidableEq, Repr

/-- Outcome of one `process_profile_with_context` invocation: an unexpected
exception escaping the processor (e.g. from OCR), or a run whose reasoning
call has the given outcome. -/
inductive ProfileCall where
  | raises
  | runs (r : ReasonRes)
deriving DecidableEq, Repr

/-- The environment fixes the outcome of every external call site of one
orchestrator invocation, the wall clock, per-stage durations, and whether a
client `cancel` lands just before each of the four between-stage
cancellation checks. -/
structure Env where
  now : Nat := 0
  parse_ok : Bool := true
  ocr_a : Option String := none
  ocr_b : Option String := none
  call_a : ProfileCall := .runs .valid
  call_b : ProfileCall := .runs .valid
  enrich_a : CallRes EnrichResult := .raises
  enrich_b : CallRes EnrichResult := .raises
  engine : CallRes (Option DatePlan) := .raises
  discoverer : CallRes (Option VenuePlan) := .raises
  optimizer : CallRes (Option FinalPlan) := .raises
  cancel1 : Bool := false
  cancel2 : Bool := false
  cancel3 : Bool := false
  cancel5 : Bool := false
  d1 : Nat := 0
  d2 : Nat := 0
  d34 : Nat := 0
  d5 : Nat := 0
  d6 : Nat := 0
deriving Repr

/-- Observable effects of one orchestrator invocation, in order. -/
inductive Event where
  /-- `redis_client.setex(processing_lock_key, 300, "locked")` -/
  | acquireLock
  /-- `redis_client.delete(processing_lock_key)` in the `finally` block -/
  | releaseLock
  /-- `redis_get_json(REQUEST_KEY...)` -/
  | readRequest
  /-- one external stage-component invocation, by call-site tag -/
  | extCall (tag : String)
  /-- `redis_set_json(PROGRESS_KEY..., doc, ttl)` -/
  | writeProgress (p : Progress) (ttl : Nat)
  /-- `redis_set_json(RESULT_KEY..., doc, ttl)` -/
  | writeResult (r : ResultDoc) (ttl : Nat)
  /-- `redis_client.setex(completed:{id}, ttl, "true")` -/
  | setCompleted (ttl : Nat)
  /-- `context_container.store_step_output(key, output)`, recording the
  `original_context` field of the stored output -/
  | storeStep (key : String) (octx : Option Ctx)
deriving DecidableEq, Repr

/-! ## Context container (app/utils/context_container.py) -/

/-- The container state: the normalized original context plus the stored
step outputs (slots for the keys used by the orchestrator:
`"1a"`, `"1b"`, `"2a"`, `"2b"`, `3`, `5`, `6`). -/
structure ContextContainer where
  original_context : Ctx
  out_1a : Option (Tagged ProfileResult) := none
  out_1b : Option (Tagged ProfileResult) := none
  out_2a : Option (Tagged EnrichResult) := none
  out_2b : Option (Tagged EnrichResult) := none
  out_3 : Option (Tagged DatePlan) := none
  out_5 : Option (Tagged VenuePlan) := none
  out_6 : Option (Tagged FinalPlan) := none
  steps_completed : List String := []
deriving DecidableEq, Repr

/-- `create_context_container(context)` = `ContextContainer(context)`, which
normalizes the request context. -/
def create_context_container (c : SubmittedCtx) : ContextContainer :=
  { original_context := normalize_context c }

/-- Step context built by `ContextContainer.get_context_for_step`: a copy of
the original context plus `step_number` and `pipeline_stage`. -/
structure CtxStep where
  base : Ctx
  step_number : Nat
  pipeline_stage : String
deriving DecidableEq, Repr

/-- `ContextContainer.get_context_for_step` (lines 55-64). -/
def ContextContainer.get_context_for_step (cc : ContextContainer) (n : Nat) :
    CtxStep :=
  { base := cc.original_context
    step_number := n
    pipeline_stage := "step_" ++ toString n }

/-- The injection performed by `store_step_output` (lines 66-82) on the
output dict (which Python mutates in place): set `original_context` and
`processing_metadata["input_context"]` to a copy of the container context
and flag `context_preserved`. -/
def injectContext (ctx : Ctx) (o : Tagged α) : Tagged α :=
  { o with
    original_context := some ctx
    meta_input_context := some ctx
    meta_context_preserved := true }

/-- `get_enhanced_output_for_next_step` (lines 88-107) on a copy of a stored
output: re-assert `original_context`, add `preserved_context` and
`processing_metadata` flags. -/
def enhanceOutput (ctx : Ctx) (o : Tagged α) : Tagged α :=
  { o with
    original_context := some ctx
    preserved_context := some ctx
    meta_input_context := some ctx
    meta_container_used := true }

/-! ## Step-1 profile processing
(app/services/profile_processor.py delegating to
profile_analyzer_optimized.ProfileAnalyzer) -/

/-- Python truthiness of an optional string field. -/
def pyTruthy (o : Option String) : Bool :=
  match o with
  | some s => s ≠ ""
  | none => false

/-- `_fallback_analysis` of the speed-optimized analyzer (lines 390-485):
always a full, step-2 compatible analysis dict flagged
`fallback_used: True`. -/
def fallback_analysis (reason : String) : Analysis :=
  { fallback_used := true, error_reason := some reason }

/-- `ProfileAnalyzer.analyze_profile_with_context`
(profile_analyzer_optimized.py lines 29-105): short text falls back; a valid
reasoning response yields a converted analysis; timeout, rate limit, any
exception or a structurally invalid response all fall back.  The analyzer
never raises and never returns an empty result. -/
def analyze_profile_with_context (profile_text : String) (r : ReasonRes) :
    Analysis :=
  if profile_text = "" ∨ (pyStrip profile_text).length < 3 then
    fallback_analysis "insufficient_text"
  else
    match r with
    | .valid => { fallback_used := false, error_reason := none }
    | .invalid reason => fallback_analysis reason

/-- `ProfileProcessor._extract_text` (profile_processor.py lines 50-81):
join the stripped direct text and the stripped OCR text (the OCR outcome is
environment-supplied) with a space. -/
def extract_text (text : Option String) (ocr : Option String) : String :=
  let parts :=
    (match text with
     | some t => if pyStrip t ≠ "" then [pyStrip t] else []
     | none => []) ++
    (match ocr with
     | some t => if pyStrip t ≠ "" then [pyStrip t] else []
     | none => [])
  String.intercalate " " parts

/-- `ProfileProcessor.process_profile_with_context`
(profile_processor.py lines 15-44): `none` models an unexpected exception
escaping the processor; otherwise an empty combined text yields
`_empty_profile_response` (`success: False`), and any analyzer outcome —
including the all-attempts-failed fallback — yields `success: True`.
(The processor's own `original_context`/`input_context` keys are
overwritten by the container injection at every store and are not modelled
separately.) -/
def process_profile_with_context (text : Option String) (ocr : Option String)
    (call : ProfileCall) : Option (Tagged ProfileResult) :=
  match call with
  | .raises => none
  | .runs r =>
    let profile_text := extract_text text ocr
    if profile_text = "" then
      some { val := { success := false, error := some "No text content found",
                      input_text := "", analysis := none } }
    else
      some { val := { success := true, error := none,
                      input_text := profile_text,
                      analysis := some (analyze_profile_with_context profile_text r) } }

/-! ## Redis helpers and progress writer (main.py) -/

/-- `redis_set_json(PROGRESS_KEY...)`. -/
def setProgress (p : Progress) (ttl : Nat) (s : Store) : Store × List Event :=
  ({ s with progress := some p, progress_ttl := ttl },
   [Event.writeProgress p ttl])

/-- `redis_set_json(RESULT_KEY...)`. -/
def setResult (r : ResultDoc) (ttl : Nat) (s : Store) : Store × List Event :=
  ({ s with result := some r, result_ttl := ttl },
   [Event.writeResult r ttl])

/-- Python keeps only the last `n` entries: `l[-n:]`. -/
def lastN (n : Nat) (l : List String) : List String :=
  l.drop (l.length - n)

/-- Keyword arguments of `update_redis_progress` (main.py lines 1175-1178);
each defaults to `None`. -/
structure UpdArgs where
  status : Option JobStatus := none
  current_step : Option Nat := none
  overall_progress : Option Nat := none
  step_status : Option String := none
  status_value : Option String := none
  duration : Option Nat := none
  preview : Option String := none
  cultural_preview : Option String := none

/-- `update_redis_progress` (main.py lines 1175-1220).  Read-modify-write of
the Progress Document: a missing document makes the call a no-op; the
auto-calculated `overall_progress` is `min(int(current_step / 6 * 100), 95)`
and is only computed when the `current_step` argument is truthy (non-zero);
an appended `cultural_preview` keeps only the last 8 entries; the write uses
a 2-hour TTL. -/
def update_redis_progress (now : Nat) (a : UpdArgs) (s : Store) :
    Store × List Event :=
  match s.progress with
  | none => (s, [])
  | some p0 =>
    let p1 := match a.status with
      | some st => { p0 with status := st }
      | none => p0
    let p2 := match a.current_step with
      | some cs => { p1 with current_step := cs }
      | none => p1
    let p3 := match a.overall_progress with
      | some op => { p2 with overall_progress := op }
      | none =>
        match a.current_step with
        | some cs =>
          if cs ≠ 0 then { p2 with overall_progress := min (cs * 100 / 6) 95 }
          else p2
        | none => p2
    let p4 := match a.step_status, a.status_value with
      | some key, some sv =>
        { p3 with steps := p3.steps.update key (fun r =>
            let r1 := { r with status := sv }
            let r2 := match a.duration with
              | some d => { r1 with duration := some d }
              | none => r1
            match a.preview with
            | some pv => { r2 with preview := pv }
            | none => r2) }
      | _, _ => p3
    let p5 := match a.cultural_preview with
      | some c =>
        { p4 with cultural_previews := lastN 8 (p4.cultural_previews ++ [c]) }
      | none => p4
    let p6 := { p5 with last_updated := now }
    setProgress p6 7200 s

/-- `update_redis_progress_with_qloo_visibility` (main.py lines 734-770):
for steps 2 and 5 with Qloo data present, record the Qloo detail block and
append a preview to `cultural_previews` — without the last-8 cap of
`update_redis_progress` — then write the document back with a 2-hour TTL. -/
def update_redis_progress_with_qloo_visibility (step : Nat) (qloo_data : Bool)
    (preview : String) (s : Store) : Store × List Event :=
  match s.progress with
  | none => (s, [])
  | some p0 =>
    if step = 2 ∧ qloo_data then
      let p1 := { p0 with
        qloo_step2_details := true
        cultural_previews := p0.cultural_previews ++ [preview] }
      setProgress p1 7200 s
    else if step = 5 ∧ qloo_data then
      let p1 := { p0 with
        qloo_step5_details := true
        cultural_previews := p0.cultural_previews ++ [preview] }
      setProgress p1 7200 s
    else
      setProgress p0 7200 s

/-- `check_redis_cancellation` (main.py lines 1222-1231). -/
def check_redis_cancellation (s : Store) : Bool :=
  match s.progress with
  | some p => p.status = JobStatus.cancelled
  | none => false

/-- `get_current_step_from_redis` (main.py lines 1233-1239). -/
def get_current_step_from_redis (s : Store) : Nat :=
  match s.progress with
  | some p => p.current_step
  | none => 0

/-- `handle_redis_processing_error` (main.py lines 1241-1264): flip the
Progress status to `error` at the failed step, then store an Error Result
with a 1-hour TTL. -/
def handle_redis_processing_error (now : Nat) (error_message : String)
    (failed_step : Nat) (s : Store) : Store × List Event :=
  let (s1, e1) := update_redis_progress now
    { status := some JobStatus.error, current_step := some failed_step } s
  let errorDoc : ResultDoc :=
    { success := false
      error := some "Cultural intelligence processing failed"
      detail := some error_message
      failed_at_step := some failed_step }
  let (s2, e2) := setResult errorDoc 3600 s1
  (s2, e1 ++ e2)

/-- `cancel_date_plan` (main.py lines 550-579): if a Progress Document
exists, set its status to `cancelled` and persist with a 10-minute TTL; the
Boolean distinguishes success from the 404 branch. -/
def cancel_date_plan (now : Nat) (s : Store) : Store × List Event × Bool :=
  match s.progress with
  | some p =>
    let (s1, e1) := setProgress { p with status := JobStatus.cancelled,
                                         last_updated := now } 600 s
    (s1, e1, true)
  | none => (s, [], false)

/-- The initial Progress Document written at submission
(main.py lines 304-328). -/
def initial_progress (now : Nat) : Progress :=
  { status := JobStatus.starting
    overall_progress := 0
    current_step := 0
    steps :=
      { s1 := { name := "Profile Analysis (Both)", status := "pending",
                duration := none,
                preview := "Preparing dual personality analysis..." }
        s2 := { name := "Qloo Cultural Discovery (Both)", status := "pending",
                duration := none,
                preview := "Waiting for Qloo API cultural exploration..." }
        s3 := { name := "Compatibility Calculation", status := "pending",
                duration := none,
                preview := "Compatibility analysis pending..." }
        s4 := { name := "Activity Planning", status := "pending",
                duration := none, preview := "Activity planning queued..." }
        s5 := { name := "Qloo Venue Discovery", status := "pending",
                duration := none,
                preview := "Qloo venue discovery awaiting..." }
        s6 := { name := "Final Optimization", status := "pending",
                duration := none,
                preview := "Final optimization pending..." } }
    cultural_previews := []
    eta_seconds := 120
    processing_start := now
    last_updated := now }

/-- The store state right after `start_cultural_date_plan` accepted a
submission (main.py lines 290-334): Request Record and initial Progress
Document both written with a 2-hour TTL, no result, no markers. -/
def submissionStore (req : ReqRecord) (now : Nat) : Store :=
  { request := some req
    request_ttl := 7200
    progress := some (initial_progress now)
    progress_ttl := 7200 }

/-! ## Progress/result gateway read path (`get_date_plan_progress`,
main.py lines 366-457) -/

/-- The step-indexed ETA budget of lines 393-406 (the `elif` chain: step 1 →
120, step 2 → 100, step ≤ 4 → 80, step 5 → 50, step 6 → 30, else 0). -/
def eta_budget (current_step : Nat) : Nat :=
  if current_step = 1 then 120
  else if current_step = 2 then 100
  else if current_step ≤ 4 then 80
  else if current_step = 5 then 50
  else if current_step = 6 then 30
  else 0

/-- `get_date_plan_progress` (main.py lines 366-457): `none` models the 404
branch; otherwise the returned document carries the derived fields and, for
`status == complete`, the resolved result with precedence embedded copy →
stored Result Document (when `success` is truthy) → `corrupted`; the
touched document is persisted back with a 10-minute TTL.  (The extra
`qloo_integration_summary` block of the embedded branch is not modelled; no
claim mentions it.) -/
def get_date_plan_progress (now : Nat) (s : Store) :
    Option Progress × Store × List Event :=
  match s.progress with
  | none => (none, s, [])
  | some p0 =>
    let elapsed := now - p0.processing_start
    let p1 :=
      if p0.status = JobStatus.processing then
        { p0 with eta_seconds := eta_budget p0.current_step - elapsed }
      else
        { p0 with eta_seconds := 0 }
    let p2 := { p1 with elapsed_seconds := some elapsed, last_updated := now }
    let p3 :=
      if p2.status = JobStatus.complete then
        if p2.results_embedded ∧ p2.final_date_plan_embedded.isSome then
          { p2 with
            final_results_available := some true
            complete_date_plan := p2.final_date_plan_embedded
            results_message :=
              some "Complete date plan available (embedded results)"
            results_source := some "embedded_in_progress" }
        else
          match s.result with
          | some res =>
            if res.success then
              { p2 with
                final_results_available := some true
                complete_date_plan := some res
                results_message := some "Complete date plan available (from Redis)"
                results_source := some "redis_fallback" }
            else
              { p2 with
                final_results_available := some false
                results_message :=
                  some "Results corrupted by duplicate task - please retry"
                results_source := some "corrupted" }
          | none =>
            { p2 with
              final_results_available := some false
              results_message :=
                some "Results corrupted by duplicate task - please retry"
              results_source := some "corrupted" }
      else
        { p2 with final_results_available := some false }
    let (s1, e1) := setProgress p3 600 s
    (some p3, s1, e1)

/-! ## The orchestrator (`process_dual_profile_pipeline`,
main.py lines 774-1173)

The body is split into segments connected by a `Flow` value: `done` models
an early `return` from the `try` block, `raised` an exception propagating
to the top-level `except` handler (lines 1164-1167), `next` normal
continuation.  External cancellation (`cancel_date_plan` running
concurrently) is modelled as landing just before each of the four
between-stage cancellation checks, which are the observation points the
claims are about. -/

/-- Control flow of the orchestrator `try` block. -/
inductive Flow (α : Type) where
  | done (s : Store) (ev : List Event)
  | raised (s : Store) (ev : List Event) (msg : String)
  | next (s : Store) (ev : List Event) (a : α)

/-- The top-level `except` handler (lines 1164-1167): convert the exception
into a Job Failure at the current step read back from Redis. -/
def topExcept (env : Env) (msg : String) (s : Store) : Store × List Event :=
  handle_redis_processing_error env.now msg (get_current_step_from_redis s) s

/-- Sequence a segment outcome with the rest of the `try` block, applying
the top-level `except` handler to a `raised` outcome. -/
def runFlow (env : Env) (f : Flow α) (k : Store → α → Store × List Event) :
    Store × List Event :=
  match f with
  | .done s ev => (s, ev)
  | .raised s ev msg =>
    let (s1, e1) := topExcept env msg s
    (s1, ev ++ e1)
  | .next s ev a =>
    let (s1, e1) := k s a
    (s1, ev ++ e1)

/-- Lines 800-833: read the Request Record, parse it, validate that at
least one profile has text, flip status to `processing`, build the context
container. -/
def seg_setup (env : Env) (s : Store) : Flow (ReqRecord × ContextContainer) :=
  match s.request with
  | none => .done s [Event.readRequest]
  | some req =>
    if env.parse_ok = false then
      let (s1, e1) := handle_redis_processing_error env.now
        "Data parsing failed" 0 s
      .done s1 ([Event.readRequest] ++ e1)
    else if pyTruthy req.profile_a_text = false ∧
            pyTruthy req.profile_b_text = false then
      let (s1, e1) := handle_redis_processing_error env.now
        "No text content found in profiles" 1 s
      .done s1 ([Event.readRequest] ++ e1)
    else
      let (s1, e1) := update_redis_progress env.now
        { status := some JobStatus.processing, current_step := some 1 } s
      let cc := create_context_container req.context
      .next s1 ([Event.readRequest] ++ e1) (req, cc)

/-- Lines 838-888: step 1, dual profile analysis. -/
def seg_step1 (env : Env) (req : ReqRecord) (cc : ContextContainer)
    (s : Store) : Flow (Tagged ProfileResult × Tagged ProfileResult × ContextContainer) :=
  let (s1, e1) := update_redis_progress env.now
    { current_step := some 1, step_status := some "1",
      status_value := some "processing",
      preview := some "Analyzing both personalities and interests..." } s
  let _step1_context := cc.get_context_for_step 1
  let evA := [Event.extCall "step1_profile_a"]
  match process_profile_with_context req.profile_a_text env.ocr_a env.call_a with
  | none => .raised s1 (e1 ++ evA) "profile A processing raised"
  | some result_a =>
    let evB := [Event.extCall "step1_profile_b"]
    match process_profile_with_context req.profile_b_text env.ocr_b env.call_b with
    | none => .raised s1 (e1 ++ evA ++ evB) "profile B processing raised"
    | some result_b =>
      if result_a.val.success = false ∨ result_b.val.success = false then
        let (s2, e2) := handle_redis_processing_error env.now
          "Profile analysis failed" 1 s1
        .done s2 (e1 ++ evA ++ evB ++ e2)
      else
        let ra := injectContext cc.original_context result_a
        let rb := injectContext cc.original_context result_b
        let cc1 := { cc with out_1a := some ra, out_1b := some rb,
                             steps_completed := cc.steps_completed ++ ["1a", "1b"] }
        let evS := [Event.storeStep "1a" ra.original_context,
                    Event.storeStep "1b" rb.original_context]
        let (s2, e2) := update_redis_progress env.now
          { step_status := some "1", status_value := some "complete",
            duration := some env.d1,
            preview := some "Both personalities analyzed",
            cultural_preview := some "Two personality profiles analyzed" } s1
        .next s2 (e1 ++ evA ++ evB ++ evS ++ e2) (ra, rb, cc1)

/-- One between-stage cancellation check (`check_redis_cancellation`),
preceded — when the environment says so — by a concurrent
`cancel_date_plan`. -/
def cancel_checkpoint (flag : Bool) (now : Nat) (s : Store) : Flow Unit :=
  let sc :=
    if flag then
      match cancel_date_plan now s with
      | (s1, e1, _) => (s1, e1)
    else (s, ([] : List Event))
  match sc with
  | (s1, e1) =>
    if check_redis_cancellation s1 then .done s1 e1 else .next s1 e1 ()

/-- Lines 894-949: step 2, dual cultural enhancement with Qloo. -/
def seg_step2 (env : Env) (cc : ContextContainer) (s : Store) :
    Flow (Tagged EnrichResult × Tagged EnrichResult × ContextContainer) :=
  let (s1, e1) := update_redis_progress env.now
    { current_step := some 2, step_status := some "2",
      status_value := some "processing",
      preview := some "Discovering cultural preferences using Qloo API for both profiles..." } s
  let evA := [Event.extCall "step2_enrich_a"]
  match env.enrich_a with
  | .raises => .raised s1 (e1 ++ evA) "enricher A raised"
  | .ok ea =>
    let evB := [Event.extCall "step2_enrich_b"]
    match env.enrich_b with
    | .raises => .raised s1 (e1 ++ evA ++ evB) "enricher B raised"
    | .ok eb =>
      if ea.success = false ∨ eb.success = false then
        let (s2, e2) := handle_redis_processing_error env.now
          "Cultural enhancement failed" 2 s1
        .done s2 (e1 ++ evA ++ evB ++ e2)
      else
        let ta := injectContext cc.original_context { val := ea }
        let tb := injectContext cc.original_context { val := eb }
        let cc1 := { cc with out_2a := some ta, out_2b := some tb,
                             steps_completed := cc.steps_completed ++ ["2a", "2b"] }
        let evS := [Event.storeStep "2a" ta.original_context,
                    Event.storeStep "2b" tb.original_context]
        let (s2, e2) := update_redis_progress env.now
          { step_status := some "2", status_value := some "complete",
            duration := some env.d2,
            preview := some "Found cultural discoveries using Qloo API",
            cultural_preview := some ("Qloo API discovered cross-domain cultural preferences for both profiles in " ++ ea.user_location) } s1
        let (s3, e3) := update_redis_progress_with_qloo_visibility 2 true
          "Qloo API discovered cultural entities across domains" s2
        .next s3 (e1 ++ evA ++ evB ++ evS ++ e2 ++ e3) (ta, tb, cc1)

/-- Lines 955-995: steps 3-4, date intelligence plus the step-4
bookkeeping pass. -/
def seg_step3 (env : Env) (cc : ContextContainer) (s : Store) :
    Flow (Tagged DatePlan × ContextContainer) :=
  let (s1, e1) := update_redis_progress env.now
    { current_step := some 3, step_status := some "3",
      status_value := some "processing",
      preview := some "Calculating real compatibility between two people..." } s
  let evE := [Event.extCall "step3_engine"]
  match env.engine with
  | .raises => .raised s1 (e1 ++ evE) "date intelligence raised"
  | .ok none =>
    let (s2, e2) := handle_redis_processing_error env.now
      "Steps 3-4 failed: Date intelligence failed" 3 s1
    .done s2 (e1 ++ evE ++ e2)
  | .ok (some dp) =>
    if pyTruthy dp.error then
      let (s2, e2) := handle_redis_processing_error env.now
        "Steps 3-4 failed: Date intelligence failed" 3 s1
      .done s2 (e1 ++ evE ++ e2)
    else
      let td := injectContext cc.original_context { val := dp }
      let cc1 := { cc with out_3 := some td,
                           steps_completed := cc.steps_completed ++ ["3"] }
      let evS := [Event.storeStep "3" td.original_context]
      let (s2, e2) := update_redis_progress env.now
        { step_status := some "3", status_value := some "complete",
          duration := some env.d34,
          preview := some ("Compatibility calculated - Theme: " ++ dp.theme),
          cultural_preview := some ("Real compatibility calculated with theme " ++ dp.theme) } s1
      let (s3, e3) := update_redis_progress env.now
        { current_step := some 4, step_status := some "4",
          status_value := some "complete", duration := some 0,
          preview := some "Activity planning included in compatibility analysis" } s2
      .next s3 (e1 ++ evE ++ evS ++ e2 ++ e3) (td, cc1)

/-- Lines 998-1049: step 5, Qloo venue discovery. -/
def seg_step5 (env : Env) (user_location : String) (cc : ContextContainer)
    (s : Store) : Flow (Tagged VenuePlan × ContextContainer) :=
  let (s1, e1) := update_redis_progress env.now
    { current_step := some 5, step_status := some "5",
      status_value := some "processing",
      preview := some "Finding perfect venues using Qloo API intelligence..." } s
  match cc.out_3 with
  | none => .raised s1 e1 "Step 3 output not found"
  | some o3 =>
    let _step5_input := enhanceOutput cc.original_context o3
    let evD := [Event.extCall "step5_discoverer"]
    match env.discoverer with
    | .raises => .raised s1 (e1 ++ evD) "venue discovery raised"
    | .ok none =>
      let (s2, e2) := handle_redis_processing_error env.now
        "Step 5 failed: Venue discovery failed" 5 s1
      .done s2 (e1 ++ evD ++ e2)
    | .ok (some vp) =>
      let tv := injectContext cc.original_context { val := vp }
      let cc1 := { cc with out_5 := some tv,
                           steps_completed := cc.steps_completed ++ ["5"] }
      let evS := [Event.storeStep "5" tv.original_context]
      let (s2, e2) := update_redis_progress env.now
        { step_status := some "5", status_value := some "complete",
          duration := some env.d5,
          preview := some "Found venues using Qloo API",
          cultural_preview := some ("Qloo API matched perfect venues using cultural intelligence in " ++ user_location) } s1
      let (s3, e3) := update_redis_progress_with_qloo_visibility 5 true
        "Qloo API matched venues using cultural preference algorithms" s2
      .next s3 (e1 ++ evD ++ evS ++ e2 ++ e3) (tv, cc1)

/-- Lines 1055-1083: step 6, final optimization. -/
def seg_step6 (env : Env) (user_location : String) (cc : ContextContainer)
    (s : Store) : Flow (Tagged FinalPlan × ContextContainer) :=
  let (s1, e1) := update_redis_progress env.now
    { current_step := some 6, step_status := some "6",
      status_value := some "processing",
      preview := some "Creating your complete date plan with perfect timing..." } s
  match cc.out_5 with
  | none => .raised s1 e1 "Step 5 output not found"
  | some o5 =>
    let _step6_input := enhanceOutput cc.original_context o5
    let evO := [Event.extCall "step6_optimizer"]
    match env.optimizer with
    | .raises => .raised s1 (e1 ++ evO) "final optimization raised"
    | .ok none =>
      let (s2, e2) := handle_redis_processing_error env.now
        "Step 6 failed: Final optimization failed" 6 s1
      .done s2 (e1 ++ evO ++ e2)
    | .ok (some fp) =>
      let tf := injectContext cc.original_context { val := fp }
      let cc1 := { cc with out_6 := some tf,
                           steps_completed := cc.steps_completed ++ ["6"] }
      let evS := [Event.storeStep "6" tf.original_context]
      let loc := match fp.location_city with
        | some l => l
        | none => user_location
      let (s2, e2) := update_redis_progress env.now
        { step_status := some "6", status_value := some "complete",
          duration := some env.d6,
          preview := some ("Complete! activities in " ++ loc),
          cultural_preview := some ("Your perfect " ++ loc ++ " date plan is ready!") } s1
      .next s2 (e1 ++ evO ++ evS ++ e2) (tf, cc1)

/-- Lines 1085-1162: pipeline completion.  Building `final_response` reads
`qloo_insights['total_entities_discovered']` and
`qloo_insights['total_venues_analyzed']` at the TOP level of the insights
dict (lines 1114 and 1125-1127); the dict nests those totals one level down
(lines 692-732), so the subscript raises `KeyError` and control passes to
the top-level `except` handler.  The intended termination sequence — store
the success Result Document with a 24-hour TTL, embed it in the Progress
Document, flip status to `complete` at 100%, set the completion marker — is
modelled faithfully in the (unreachable) branch where the keys resolve. -/
def seg_completion (env : Env) (ta tb : Tagged EnrichResult)
    (tv : Tagged VenuePlan) (tf : Tagged FinalPlan) (s : Store) : Flow Unit :=
  let qloo_insights := extract_qloo_insights_for_judges ta.val tb.val tv.val
  match qlooTopGet qloo_insights "total_entities_discovered",
        qlooTopGet qloo_insights "total_venues_analyzed" with
  | some _, some _ =>
    let total_time := env.d1 + env.d2 + env.d34 + env.d5 + env.d6
    let final_response : ResultDoc :=
      { success := true
        message := some "Complete 6-step dual profile cultural intelligence pipeline executed successfully - POWERED BY QLOO API"
        final_date_plan := some tf
        qloo_cultural_intelligence := some qloo_insights
        total_time_seconds := total_time }
    let (s1, e1) := setResult final_response 86400 s
    let (s2, e2) := match s1.progress with
      | some cp =>
        setProgress { cp with
          final_date_plan_embedded := some final_response
          results_embedded := true
          embedded_timestamp := some env.now } 7200 s1
      | none => (s1, [])
    let (s3, e3) := update_redis_progress env.now
      { status := some JobStatus.complete, overall_progress := some 100,
        current_step := some 6 } s2
    let s4 := { s3 with completed := true, completed_ttl := 7200 }
    .done s4 (e1 ++ e2 ++ e3 ++ [Event.setCompleted 7200])
  | _, _ =>
    .raised s [] "KeyError: total_entities_discovered"

/-- The `try` block of `process_dual_profile_pipeline`
(main.py lines 797-1162), with the top-level `except` applied to raised
outcomes. -/
def tryBody (env : Env) (s : Store) : Store × List Event :=
  runFlow env (seg_setup env s) (fun s p =>
    match p with
    | (req, cc0) =>
      runFlow env (seg_step1 env req cc0 s) (fun s t1 =>
        match t1 with
        | (_, _, cc1) =>
          runFlow env (cancel_checkpoint env.cancel1 env.now s) (fun s _ =>
            runFlow env (seg_step2 env cc1 s) (fun s t2 =>
              match t2 with
              | (ta, tb, cc2) =>
                runFlow env (cancel_checkpoint env.cancel2 env.now s) (fun s _ =>
                  runFlow env (seg_step3 env cc2 s) (fun s t3 =>
                    match t3 with
                    | (_, cc3) =>
                      runFlow env (cancel_checkpoint env.cancel3 env.now s) (fun s _ =>
                        runFlow env (seg_step5 env ta.val.user_location cc3 s) (fun s t5 =>
                          match t5 with
                          | (tv, cc5) =>
                            runFlow env (cancel_checkpoint env.cancel5 env.now s) (fun s _ =>
                              runFlow env (seg_step6 env ta.val.user_location cc5 s) (fun s t6 =>
                                match t6 with
                                | (tf, _) =>
                                  runFlow env (seg_completion env ta tb tv tf s)
                                    (fun s _ => (s, []))))))))))))

/-- `process_dual_profile_pipeline` (main.py lines 774-1173): the
completion-marker and processing-lock no-op checks, lock acquisition
(5-minute TTL), the `try` body, and the guaranteed lock release in
`finally`. -/
def process_dual_profile_pipeline (env : Env) (s : Store) :
    Store × List Event :=
  if s.completed then (s, [])
  else if s.lock then (s, [])
  else
    let s1 : Store := { s with lock := true }
    let (s2, e2) := tryBody env s1
    ({ s2 with lock := false },
     [Event.acquireLock] ++ e2 ++ [Event.releaseLock])

/-! ## Trace predicates -/

/-- The (current_step, overall_progress) pairs of the Progress writes whose
document has status `processing`, in write order. -/
def procPairs (tr : List Event) : List (Nat × Nat) :=
  tr.filterMap (fun e =>
    match e with
    | .writeProgress p _ =>
      if p.status = JobStatus.processing then
        some (p.current_step, p.overall_progress)
      else none
    | _ => none)

/-- Adjacent pairs are componentwise non-decreasing. -/
def monoPairs : List (Nat × Nat) → Bool
  | [] => true
  | [_] => true
  | a :: b :: rest =>
    decide (a.1 ≤ b.1) && decide (a.2 ≤ b.2) && monoPairs (b :: rest)

/-- Every Progress write in the trace carries at most 8 cultural previews. -/
def previewsOK (tr : List Event) : Bool :=
  tr.all (fun e =>
    match e with
    | .writeProgress p _ => decide (p.cultural_previews.length ≤ 8)
    | _ => true)

/-- Every context-container store in the trace attaches exactly the given
context to the stored stage output. -/
def storeCtxOK (c : Ctx) (tr : List Event) : Prop :=
  ∀ e ∈ tr, ∀ key octx, e = Event.storeStep key octx → octx = some c

/-- No Result Document write in the trace. -/
def noResultWrite (tr : List Event) : Bool :=
  tr.all (fun e =>
    match e with
    | .writeResult _ _ => false
    | _ => true)

/-- No completion-marker write in the trace. -/
def noCompletedWrite (tr : List Event) : Bool :=
  tr.all (fun e =>
    match e with
    | .setCompleted _ => false
    | _ => true)

/-- Every Result Document written in the trace is an error result. -/
def onlyErrorResults (tr : List Event) : Bool :=
  tr.all (fun e =>
    match e with
    | .writeResult r _ => !r.success
    | _ => true)

/-- The cultural-preview lengths of the Progress writes in a trace, in
write order. -/
def previewLens (tr : List Event) : List Nat :=
  tr.filterMap (fun e =>
    match e with
    | .writeProgress p _ => some p.cultural_previews.length
    | _ => none)

/-- The contexts attached by the container stores in a trace, in order. -/
def octxStores (tr : List Event) : List (Option Ctx) :=
  tr.filterMap (fun e =>
    match e with
    | .storeStep _ o => some o
    | _ => none)

/-- The tags of the external stage calls in a trace, in call order. -/
def extTags (tr : List Event) : List String :=
  tr.filterMap (fun e =>
    match e with
    | .extCall tag => some tag
    | _ => none)

/-! ## Concrete fixtures used by counterexamples and witnesses -/

/-- A well-formed submission: both profiles have text and the context is
fully supplied (note the capitalized location). -/
def c1req : ReqRecord :=
  { profile_a_text := some "I love hiking and art museums"
    profile_a_image := none
    profile_b_text := some "Coffee lover, bookworm, jazz fan"
    profile_b_image := none
    context := { location := some "Rotterdam", time_of_day := some "morning",
                 season := some "summer", duration := some "full day",
                 date_type := some "first_date" } }

/-- A successful step-2 enrichment result for profile A. -/
def c1ea : EnrichResult :=
  { success := true, cross_domain_count := 5,
    categories := ["music", "food"], total_new_discoveries := 7,
    user_location := "rotterdam" }

/-- A successful step-2 enrichment result for profile B. -/
def c1eb : EnrichResult :=
  { success := true, cross_domain_count := 4, categories := ["art"],
    total_new_discoveries := 3, user_location := "rotterdam" }

/-- A successful step-5 venue plan. -/
def c1vp : VenuePlan :=
  { venue_count := 6, query_count := 3, total_venues_selected := 5 }

/-- An environment in which every external call succeeds with a structurally
valid result and no cancellation arrives. -/
def c1env : Env :=
  { enrich_a := .ok c1ea
    enrich_b := .ok c1eb
    engine := .ok (some { error := none, theme := "Creative Exploration" })
    discoverer := .ok (some c1vp)
    optimizer := .ok (some { activities_count := 5,
                             location_city := some "rotterdam",
                             total_duration := "10 hours" }) }

/-- The fully successful concrete run. -/
def runC1 : Store × List Event :=
  process_dual_profile_pipeline c1env (submissionStore c1req 0)

/-- Like `c1env` but both step-1 reasoning calls fail (timeout and rate
limit); everything downstream succeeds. -/
def c2env : Env :=
  { c1env with call_a := .runs (.invalid "openai_timeout")
               call_b := .runs (.invalid "rate_limit") }

/-- The concrete run with both step-1 reasoning calls failing. -/
def runC2 : Store × List Event :=
  process_dual_profile_pipeline c2env (submissionStore c1req 0)

/-- Like `c1env` but a client cancel lands between step 2 and step 3. -/
def c5env : Env := { c1env with cancel2 := true }

/-- A store for a job that finished successfully: Progress is `complete`
with an embedded result, the Result Document exists, the completed marker
is set. -/
def c5doneStore : Store :=
  { progress := some { initial_progress 0 with
      status := JobStatus.complete
      current_step := 6
      overall_progress := 100
      results_embedded := true
      final_date_plan_embedded := some { success := true } }
    progress_ttl := 7200
    result := some { success := true }
    result_ttl := 86400
    completed := true
    completed_ttl := 7200 }

/-- A Progress Document in `complete` state whose embedded copy is missing
and whose stored Result Document is an error result. -/
def c7store : Store :=
  { progress := some { initial_progress 0 with
      status := JobStatus.complete
      current_step := 6
      overall_progress := 100 }
    result := some { success := false } }

/-- Update arguments carrying only a cultural preview. -/
def uArgs : UpdArgs := { cultural_preview := some "preview nine" }

/-- A nine-entry preview list, for exercising the last-8 cap. -/
def eightPreviews : List String :=
  ["p1", "p2", "p3", "p4", "p5", "p6", "p7", "p8"]

/-- A store whose Progress Document already holds 8 previews. -/
def fullPreviewStore : Store :=
  { progress := some { initial_progress 0 with
      cultural_previews := eightPreviews }
    progress_ttl := 7200 }



/-! ## Trace-projection lemmas -/

theorem procPairs_append (a b : List Event) :
    procPairs (a ++ b) = procPairs a ++ procPairs b := by
  simp [procPairs]

theorem previewLens_append (a b : List Event) :
    previewLens (a ++ b) = previewLens a ++ previewLens b := by
  simp [previewLens]

theorem octxStores_append (a b : List Event) :
    octxStores (a ++ b) = octxStores a ++ octxStores b := by
  simp [octxStores]

theorem extTags_append (a b : List Event) :
    extTags (a ++ b) = extTags a ++ extTags b := by
  simp [extTags]

theorem noResultWrite_append (a b : List Event) :
    noResultWrite (a ++ b) = (noResultWrite a && noResultWrite b) := by
  simp [noResultWrite]

/-- A stage call present in the trace contributes its tag to `extTags`. -/
theorem extCall_mem_extTags (tag : String) (tr : List Event)
    (h : Event.extCall tag ∈ tr) : tag ∈ extTags tr :=
  List.mem_filterMap.mpr ⟨_, h, rfl⟩

theorem previewsOK_eq (tr : List Event) :
    previewsOK tr = (previewLens tr).all (fun n => decide (n ≤ 8)) := by
  induction tr with
  | nil => rfl
  | cons e rest ih =>
    cases e <;> simp [previewsOK, previewLens, List.all_cons, ih] <;>
      simp [previewsOK, previewLens] at ih <;> rw [ih]

theorem storeCtxOK_iff (c : Ctx) (tr : List Event) :
    storeCtxOK c tr ↔ ∀ o ∈ octxStores tr, o = some c := by
  constructor
  · intro h o ho
    rcases List.mem_filterMap.mp ho with ⟨e, he, hfe⟩
    cases e <;> simp at hfe
    subst hfe
    exact h _ he _ _ rfl
  · intro h e he key octx heq
    subst heq
    exact h octx (List.mem_filterMap.mpr ⟨_, he, rfl⟩)

theorem lastN_length_le (n : Nat) (l : List String) :
    (lastN n l).length ≤ n := by
  simp [lastN]
  omega

theorem lastN_of_length_le (n : Nat) (l : List String)
    (h : l.length ≤ n) : lastN n l = l := by
  simp [lastN, Nat.sub_eq_zero_of_le h]

/-- Projection: the initial Progress Document starts in status `starting`. -/
theorem initial_progress_status (t : Nat) :
    (initial_progress t).status = JobStatus.starting := rfl

/-- Projection: the initial Progress Document starts at step 0. -/
theorem initial_progress_current_step (t : Nat) :
    (initial_progress t).current_step = 0 := rfl

/-- Projection: the initial Progress Document starts at 0 percent. -/
theorem initial_progress_overall (t : Nat) :
    (initial_progress t).overall_progress = 0 := rfl

/-- The insights dict returned by `extract_qloo_insights_for_judges` has no
top-level `total_entities_discovered` entry: the subscript on main.py line
1114 raises `KeyError` on every successful pipeline. -/
theorem qloo_top_get_entities (eA eB : EnrichResult) (vp : VenuePlan) :
    qlooTopGet (extract_qloo_insights_for_judges eA eB vp)
      "total_entities_discovered" = none := rfl

/-- Projection: the initial Progress Document has no cultural previews. -/
theorem initial_progress_previews (t : Nat) :
    (initial_progress t).cultural_previews = [] := rfl

/-- The top-level `except` handler writes one error-status Progress Document
(leaving the previews untouched) and one error Result Document: no
processing-status pair, no container store, and a preview count equal to the
incoming one. -/
theorem topExcept_spec (env : Env) (msg : String) (s : Store) (p : Progress)
    (hp : s.progress = some p) (hl : p.cultural_previews.length ≤ 8) :
    procPairs (topExcept env msg s).2 = []
      ∧ (previewLens (topExcept env msg s).2).all (fun n => decide (n ≤ 8)) = true
      ∧ octxStores (topExcept env msg s).2 = []
      ∧ ∃ p2, (topExcept env msg s).1.progress = some p2
          ∧ p2.status = JobStatus.error
          ∧ p2.current_step = p.current_step := by
  by_cases hcs : p.current_step = 0 <;>
    simp [topExcept, handle_redis_processing_error, update_redis_progress, hp,
      setProgress, setResult, procPairs, previewLens, octxStores, hl, hcs,
      get_current_step_from_redis]

/-- A cancellation checkpoint with no concurrent cancel and a processing
job continues with the store untouched and no events. -/
theorem cancel_checkpoint_not_cancelled (now : Nat) (s : Store) (p : Progress)
    (hp : s.progress = some p) (hst : p.status = JobStatus.processing) :
    cancel_checkpoint false now s = .next s [] () := by
  simp [cancel_checkpoint, check_redis_cancellation, hp, hst]

/-- A cancellation checkpoint hit by a concurrent cancel stops the
pipeline: one cancelled-status Progress write (previews untouched), no
processing pair, no container store. -/
theorem cancel_checkpoint_cancelled (now : Nat) (s : Store) (p : Progress)
    (hp : s.progress = some p) (hl : p.cultural_previews.length ≤ 8) :
    ∃ s1 ev, cancel_checkpoint true now s = .done s1 ev
      ∧ procPairs ev = []
      ∧ (previewLens ev).all (fun n => decide (n ≤ 8)) = true
      ∧ octxStores ev = []
      ∧ noResultWrite ev = true
      ∧ extTags ev = []
      ∧ s1.result = s.result
      ∧ ∃ p1, s1.progress = some p1 ∧ p1.status = JobStatus.cancelled
          ∧ p1.current_step = p.current_step := by
  rcases hq : cancel_checkpoint true now s with ⟨s1, ev⟩ | ⟨s1, ev, m⟩ | ⟨s1, ev, v⟩ <;>
    simp [cancel_checkpoint, cancel_date_plan, hp, setProgress,
      check_redis_cancellation] at hq
  obtain ⟨h1, h2⟩ := hq
  subst h1
  subst h2
  refine ⟨_, _, rfl, ?_, ?_, ?_, ?_, ?_, ?_, ?_⟩ <;>
    simp [procPairs, previewLens, octxStores, noResultWrite, extTags, hl]

/-- The completion stage always raises: the `qloo_insights` subscript on
main.py line 1114 misses (the totals are nested one level down), so the
success termination sequence is dead code. -/
theorem seg_completion_raises (env : Env) (ta tb : Tagged EnrichResult)
    (tv : Tagged VenuePlan) (tf : Tagged FinalPlan) (s : Store) :
    seg_completion env ta tb tv tf s
      = .raised s [] "KeyError: total_entities_discovered" := rfl

/-- Setup spec: with a Request Record present and a fresh Progress Document
(no previews yet), the setup segment either stops early (parse failure or
no profile text: only error-status writes, previews untouched) or flips the
job to `processing` at step 1/16% and hands over the parsed request with a
fresh context container. -/
theorem seg_setup_spec (env : Env) (req : ReqRecord) (s : Store) (p0 : Progress)
    (hreq : s.request = some req) (hp : s.progress = some p0)
    (hlen : p0.cultural_previews = []) :
    (∃ s1 ev, seg_setup env s = .done s1 ev
       ∧ (env.parse_ok = false ∨
           (pyTruthy req.profile_a_text = false ∧
            pyTruthy req.profile_b_text = false))
       ∧ procPairs ev = []
       ∧ (previewLens ev).all (fun n => decide (n ≤ 8)) = true
       ∧ octxStores ev = [])
    ∨ (∃ s1 ev, seg_setup env s
         = .next s1 ev (req, create_context_container req.context)
       ∧ procPairs ev = [(1, 16)]
       ∧ (previewLens ev).all (fun n => decide (n ≤ 8)) = true
       ∧ octxStores ev = []
       ∧ noResultWrite ev = true
       ∧ extTags ev = []
       ∧ s1.result = s.result
       ∧ ∃ p1, s1.progress = some p1 ∧ p1.status = JobStatus.processing
           ∧ p1.current_step = 1 ∧ p1.cultural_previews.length = 0) := by
  cases hpo : env.parse_ok with
  | false =>
    refine Or.inl ?_
    rcases hq : seg_setup env s with ⟨s1, ev⟩ | ⟨s1, ev, m⟩ | ⟨s1, ev, v⟩ <;>
      simp [seg_setup, hreq, hpo, handle_redis_processing_error,
        update_redis_progress, hp, setProgress, setResult] at hq
    obtain ⟨h1, h2⟩ := hq
    subst h1
    subst h2
    refine ⟨_, _, rfl, Or.inl rfl, ?_, ?_, ?_⟩ <;>
      simp [procPairs, previewLens, octxStores, hlen]
  | true =>
    by_cases hta : pyTruthy req.profile_a_text = false ∧
        pyTruthy req.profile_b_text = false
    · refine Or.inl ?_
      rcases hq : seg_setup env s with ⟨s1, ev⟩ | ⟨s1, ev, m⟩ | ⟨s1, ev, v⟩ <;>
        simp [seg_setup, hreq, hpo, hta, handle_redis_processing_error,
          update_redis_progress, hp, setProgress, setResult] at hq
      obtain ⟨h1, h2⟩ := hq
      subst h1
      subst h2
      refine ⟨_, _, rfl, Or.inr hta, ?_, ?_, ?_⟩ <;>
        simp [procPairs, previewLens, octxStores, hlen]
    · refine Or.inr ?_
      rcases hq : seg_setup env s with ⟨s1, ev⟩ | ⟨s1, ev, m⟩ | ⟨s1, ev, v⟩ <;>
        simp [seg_setup, hreq, hpo, hta, update_redis_progress, hp,
          setProgress] at hq
      obtain ⟨h1, h2, h3⟩ := hq
      subst h1
      subst h2
      subst h3
      refine ⟨_, _, rfl, ?_, ?_, ?_, ?_, ?_, ?_, ?_⟩ <;>
        simp [procPairs, previewLens, octxStores, noResultWrite, extTags, hlen]

/-- Step-1 spec: from a processing job with no previews, the dual profile
analysis raises (an exception escaped a profile processor), fails (a
profile's combined extracted text is empty: the job ends in error at step
1), or completes — storing both tagged outputs with the container context,
appending one preview, and leaving the job processing at step 1 with one
preview and the Result slot untouched. -/
theorem seg_step1_spec (env : Env) (req : ReqRecord) (cc : ContextContainer)
    (s : Store) (p : Progress) (hp : s.progress = some p)
    (hst : p.status = JobStatus.processing)
    (hlen : p.cultural_previews.length = 0) :
    (∃ s1 ev m, seg_step1 env req cc s = .raised s1 ev m
       ∧ (env.call_a = ProfileCall.raises ∨ env.call_b = ProfileCall.raises)
       ∧ procPairs ev = [(1, 16)]
       ∧ (previewLens ev).all (fun n => decide (n ≤ 8)) = true
       ∧ octxStores ev = []
       ∧ ∃ p1, s1.progress = some p1 ∧ p1.current_step = 1
           ∧ p1.cultural_previews.length ≤ 8)
    ∨ (∃ s1 ev, seg_step1 env req cc s = .done s1 ev
       ∧ (extract_text req.profile_a_text env.ocr_a = "" ∨
           extract_text req.profile_b_text env.ocr_b = "")
       ∧ procPairs ev = [(1, 16)]
       ∧ (previewLens ev).all (fun n => decide (n ≤ 8)) = true
       ∧ octxStores ev = []
       ∧ ∃ p1, s1.progress = some p1 ∧ p1.status = JobStatus.error
           ∧ p1.current_step = 1)
    ∨ (∃ s1 ev ra rb cc1, seg_step1 env req cc s = .next s1 ev (ra, rb, cc1)
       ∧ procPairs ev = [(1, 16), (1, 16)]
       ∧ (previewLens ev).all (fun n => decide (n ≤ 8)) = true
       ∧ octxStores ev = [some cc.original_context, some cc.original_context]
       ∧ noResultWrite ev = true
       ∧ extTags ev = ["step1_profile_a", "step1_profile_b"]
       ∧ s1.result = s.result
       ∧ cc1.original_context = cc.original_context
       ∧ ∃ p1, s1.progress = some p1 ∧ p1.status = JobStatus.processing
           ∧ p1.current_step = 1 ∧ p1.cultural_previews.length = 1) := by
  rcases hca : env.call_a with _ | ra
  · refine Or.inl ?_
    rcases hq : seg_step1 env req cc s with ⟨s1, ev⟩ | ⟨s1, ev, m⟩ | ⟨s1, ev, v⟩ <;>
      simp [seg_step1, hca, process_profile_with_context,
        update_redis_progress, hp, setProgress] at hq
    obtain ⟨h1, h2, h3⟩ := hq
    subst h1
    subst h2
    subst h3
    refine ⟨_, _, _, rfl, Or.inl rfl, ?_, ?_, ?_, ?_⟩ <;>
      simp [procPairs, previewLens, octxStores, hst, hlen]
  · by_cases hxa : extract_text req.profile_a_text env.ocr_a = ""
    · rcases hcb : env.call_b with _ | rb
      · refine Or.inl ?_
        rcases hq : seg_step1 env req cc s with ⟨s1, ev⟩ | ⟨s1, ev, m⟩ | ⟨s1, ev, v⟩ <;>
          simp [seg_step1, hca, hcb, hxa, process_profile_with_context,
            update_redis_progress, hp, setProgress] at hq
        obtain ⟨h1, h2, h3⟩ := hq
        subst h1
        subst h2
        subst h3
        refine ⟨_, _, _, rfl, Or.inr rfl, ?_, ?_, ?_, ?_⟩ <;>
          simp [procPairs, previewLens, octxStores, hst, hlen]
      · by_cases hxb : extract_text req.profile_b_text env.ocr_b = ""
        all_goals
          refine Or.inr (Or.inl ?_)
          rcases hq : seg_step1 env req cc s with ⟨s1, ev⟩ | ⟨s1, ev, m⟩ | ⟨s1, ev, v⟩ <;>
            simp [seg_step1, hca, hcb, hxa, hxb, process_profile_with_context,
              update_redis_progress, hp, setProgress, setResult,
              handle_redis_processing_error] at hq
          obtain ⟨h1, h2⟩ := hq
          subst h1
          subst h2
          refine ⟨_, _, rfl, Or.inl hxa, ?_, ?_, ?_, ?_⟩ <;>
            simp [procPairs, previewLens, octxStores, hst, hlen]
    · rcases hcb : env.call_b with _ | rb
      · refine Or.inl ?_
        rcases hq : seg_step1 env req cc s with ⟨s1, ev⟩ | ⟨s1, ev, m⟩ | ⟨s1, ev, v⟩ <;>
          simp [seg_step1, hca, hcb, hxa, process_profile_with_context,
            update_redis_progress, hp, setProgress] at hq
        obtain ⟨h1, h2, h3⟩ := hq
        subst h1
        subst h2
        subst h3
        refine ⟨_, _, _, rfl, Or.inr rfl, ?_, ?_, ?_, ?_⟩ <;>
          simp [procPairs, previewLens, octxStores, hst, hlen]
      · by_cases hxb : extract_text req.profile_b_text env.ocr_b = ""
        · refine Or.inr (Or.inl ?_)
          rcases hq : seg_step1 env req cc s with ⟨s1, ev⟩ | ⟨s1, ev, m⟩ | ⟨s1, ev, v⟩ <;>
            simp [seg_step1, hca, hcb, hxa, hxb, process_profile_with_context,
              update_redis_progress, hp, setProgress, setResult,
              handle_redis_processing_error] at hq
          obtain ⟨h1, h2⟩ := hq
          subst h1
          subst h2
          refine ⟨_, _, rfl, Or.inr hxb, ?_, ?_, ?_, ?_⟩ <;>
            simp [procPairs, previewLens, octxStores, hst, hlen]
        · refine Or.inr (Or.inr ?_)
          rcases hq : seg_step1 env req cc s with ⟨s1, ev⟩ | ⟨s1, ev, m⟩ | ⟨s1, ev, v⟩ <;>
            simp [seg_step1, hca, hcb, hxa, hxb, process_profile_with_context,
              update_redis_progress, hp, setProgress, injectContext] at hq
          obtain ⟨h1, h2, h3⟩ := hq
          subst h1
          subst h2
          subst h3
          refine ⟨_, _, _, _, _, rfl, ?_, ?_, ?_, ?_, ?_, ?_, ?_, ?_⟩ <;>
            simp [procPairs, previewLens, octxStores, noResultWrite, extTags,
              injectContext, lastN, List.length_append, hst, hlen]

/-- Step-2 spec: from a processing job with one preview, the dual Qloo
enrichment raises, fails (the job ends in error at step 2), or completes —
storing both tagged outputs with the container context, appending a capped
preview and an uncapped Qloo-visibility preview, and leaving the job
processing at step 2 with three previews and the Result slot untouched. -/
theorem seg_step2_spec (env : Env) (cc : ContextContainer)
    (s : Store) (p : Progress) (hp : s.progress = some p)
    (hst : p.status = JobStatus.processing)
    (hlen : p.cultural_previews.length = 1) :
    (∃ s1 ev m, seg_step2 env cc s = .raised s1 ev m
       ∧ (env.enrich_a = CallRes.raises ∨ env.enrich_b = CallRes.raises)
       ∧ procPairs ev = [(2, 33)]
       ∧ (previewLens ev).all (fun n => decide (n ≤ 8)) = true
       ∧ octxStores ev = []
       ∧ ∃ p1, s1.progress = some p1 ∧ p1.current_step = 2
           ∧ p1.cultural_previews.length ≤ 8)
    ∨ (∃ s1 ev, seg_step2 env cc s = .done s1 ev
       ∧ (∃ ea eb, env.enrich_a = CallRes.ok ea ∧ env.enrich_b = CallRes.ok eb
           ∧ (ea.success = false ∨ eb.success = false))
       ∧ procPairs ev = [(2, 33)]
       ∧ (previewLens ev).all (fun n => decide (n ≤ 8)) = true
       ∧ octxStores ev = []
       ∧ ∃ p1, s1.progress = some p1 ∧ p1.status = JobStatus.error
           ∧ p1.current_step = 2)
    ∨ (∃ s1 ev ta tb cc1, seg_step2 env cc s = .next s1 ev (ta, tb, cc1)
       ∧ procPairs ev = [(2, 33), (2, 33), (2, 33)]
       ∧ (previewLens ev).all (fun n => decide (n ≤ 8)) = true
       ∧ octxStores ev = [some cc.original_context, some cc.original_context]
       ∧ noResultWrite ev = true
       ∧ extTags ev = ["step2_enrich_a", "step2_enrich_b"]
       ∧ s1.result = s.result
       ∧ cc1.original_context = cc.original_context
       ∧ ∃ p1, s1.progress = some p1 ∧ p1.status = JobStatus.processing
           ∧ p1.current_step = 2 ∧ p1.cultural_previews.length = 3) := by
  rcases hea : env.enrich_a with ea | _
  · rcases heb : env.enrich_b with eb | _
    · by_cases hsc : ea.success = false ∨ eb.success = false
      · refine Or.inr (Or.inl ?_)
        rcases hq : seg_step2 env cc s with ⟨s1, ev⟩ | ⟨s1, ev, m⟩ | ⟨s1, ev, v⟩ <;>
          simp [seg_step2, hea, heb, hsc, update_redis_progress, hp,
            setProgress, setResult, handle_redis_processing_error] at hq
        obtain ⟨h1, h2⟩ := hq
        subst h1
        subst h2
        refine ⟨_, _, rfl, ⟨ea, eb, rfl, rfl, hsc⟩, ?_, ?_, ?_, ?_⟩ <;>
          simp [procPairs, previewLens, octxStores, hst, hlen]
      · refine Or.inr (Or.inr ?_)
        rcases hq : seg_step2 env cc s with ⟨s1, ev⟩ | ⟨s1, ev, m⟩ | ⟨s1, ev, v⟩ <;>
          simp [seg_step2, hea, heb, hsc, update_redis_progress, hp,
            setProgress, injectContext,
            update_redis_progress_with_qloo_visibility] at hq
        obtain ⟨h1, h2, h3⟩ := hq
        subst h1
        subst h2
        subst h3
        refine ⟨_, _, _, _, _, rfl, ?_, ?_, ?_, ?_, ?_, ?_, ?_, ?_⟩ <;>
          simp [procPairs, previewLens, octxStores, noResultWrite, extTags,
            injectContext, lastN, List.length_append, hst, hlen]
    · refine Or.inl ?_
      rcases hq : seg_step2 env cc s with ⟨s1, ev⟩ | ⟨s1, ev, m⟩ | ⟨s1, ev, v⟩ <;>
        simp [seg_step2, hea, heb, update_redis_progress, hp, setProgress] at hq
      obtain ⟨h1, h2, h3⟩ := hq
      subst h1
      subst h2
      subst h3
      refine ⟨_, _, _, rfl, Or.inr rfl, ?_, ?_, ?_, ?_⟩ <;>
        simp [procPairs, previewLens, octxStores, hst, hlen]
  · refine Or.inl ?_
    rcases hq : seg_step2 env cc s with ⟨s1, ev⟩ | ⟨s1, ev, m⟩ | ⟨s1, ev, v⟩ <;>
      simp [seg_step2, hea, update_redis_progress, hp, setProgress] at hq
    obtain ⟨h1, h2, h3⟩ := hq
    subst h1
    subst h2
    subst h3
    refine ⟨_, _, _, rfl, Or.inl rfl, ?_, ?_, ?_, ?_⟩ <;>
      simp [procPairs, previewLens, octxStores, hst, hlen]

/-- Step-3/4 spec: from a processing job with three previews, date
intelligence raises, fails (engine returned nothing or an error payload:
the job ends in error at step 3), or completes — storing the tagged plan
with the container context, appending one capped preview, recording the
step-4 bookkeeping write, and leaving the job processing at step 4 with
four previews and the Result slot untouched. -/
theorem seg_step3_spec (env : Env) (cc : ContextContainer)
    (s : Store) (p : Progress) (hp : s.progress = some p)
    (hst : p.status = JobStatus.processing)
    (hlen : p.cultural_previews.length = 3) :
    (∃ s1 ev m, seg_step3 env cc s = .raised s1 ev m
       ∧ env.engine = CallRes.raises
       ∧ procPairs ev = [(3, 50)]
       ∧ (previewLens ev).all (fun n => decide (n ≤ 8)) = true
       ∧ octxStores ev = []
       ∧ ∃ p1, s1.progress = some p1 ∧ p1.current_step = 3
           ∧ p1.cultural_previews.length ≤ 8)
    ∨ (∃ s1 ev, seg_step3 env cc s = .done s1 ev
       ∧ (env.engine = CallRes.ok none ∨
           ∃ dp, env.engine = CallRes.ok (some dp) ∧ pyTruthy dp.error = true)
       ∧ procPairs ev = [(3, 50)]
       ∧ (previewLens ev).all (fun n => decide (n ≤ 8)) = true
       ∧ octxStores ev = []
       ∧ ∃ p1, s1.progress = some p1 ∧ p1.status = JobStatus.error
           ∧ p1.current_step = 3)
    ∨ (∃ s1 ev td cc1, seg_step3 env cc s = .next s1 ev (td, cc1)
       ∧ procPairs ev = [(3, 50), (3, 50), (4, 66)]
       ∧ (previewLens ev).all (fun n => decide (n ≤ 8)) = true
       ∧ octxStores ev = [some cc.original_context]
       ∧ noResultWrite ev = true
       ∧ extTags ev = ["step3_engine"]
       ∧ s1.result = s.result
       ∧ cc1.original_context = cc.original_context
       ∧ cc1.out_3 = some td
       ∧ ∃ p1, s1.progress = some p1 ∧ p1.status = JobStatus.processing
           ∧ p1.current_step = 4 ∧ p1.cultural_previews.length = 4) := by
  rcases hen : env.engine with o | _
  · rcases o with _ | dp
    · refine Or.inr (Or.inl ?_)
      rcases hq : seg_step3 env cc s with ⟨s1, ev⟩ | ⟨s1, ev, m⟩ | ⟨s1, ev, v⟩ <;>
        simp [seg_step3, hen, update_redis_progress, hp, setProgress,
          setResult, handle_redis_processing_error] at hq
      obtain ⟨h1, h2⟩ := hq
      subst h1
      subst h2
      refine ⟨_, _, rfl, Or.inl rfl, ?_, ?_, ?_, ?_⟩ <;>
        simp [procPairs, previewLens, octxStores, hst, hlen]
    · by_cases herr : pyTruthy dp.error = true
      · refine Or.inr (Or.inl ?_)
        rcases hq : seg_step3 env cc s with ⟨s1, ev⟩ | ⟨s1, ev, m⟩ | ⟨s1, ev, v⟩ <;>
          simp [seg_step3, hen, herr, update_redis_progress, hp, setProgress,
            setResult, handle_redis_processing_error] at hq
        obtain ⟨h1, h2⟩ := hq
        subst h1
        subst h2
        refine ⟨_, _, rfl, Or.inr ⟨dp, rfl, herr⟩, ?_, ?_, ?_, ?_⟩ <;>
          simp [procPairs, previewLens, octxStores, hst, hlen]
      · refine Or.inr (Or.inr ?_)
        rcases hq : seg_step3 env cc s with ⟨s1, ev⟩ | ⟨s1, ev, m⟩ | ⟨s1, ev, v⟩ <;>
          simp [seg_step3, hen, herr, update_redis_progress, hp, setProgress,
            injectContext] at hq
        obtain ⟨h1, h2, h3⟩ := hq
        subst h1
        subst h2
        subst h3
        refine ⟨_, _, _, _, rfl, ?_, ?_, ?_, ?_, ?_, ?_, ?_, ?_, ?_⟩ <;>
          simp [procPairs, previewLens, octxStores, noResultWrite, extTags,
            injectContext, lastN, List.length_append, hst, hlen]
  · refine Or.inl ?_
    rcases hq : seg_step3 env cc s with ⟨s1, ev⟩ | ⟨s1, ev, m⟩ | ⟨s1, ev, v⟩ <;>
      simp [seg_step3, hen, update_redis_progress, hp, setProgress] at hq
    obtain ⟨h1, h2, h3⟩ := hq
    subst h1
    subst h2
    subst h3
    refine ⟨_, _, _, rfl, rfl, ?_, ?_, ?_, ?_⟩ <;>
      simp [procPairs, previewLens, octxStores, hst, hlen]

/-- Step-5 spec: from a processing job with four previews and a stored
step-3 output, venue discovery raises, fails (the job ends in error at step
5), or completes — storing the tagged venue plan with the container
context, appending a capped preview and an uncapped Qloo-visibility
preview, and leaving the job processing at step 5 with six previews and the
Result slot untouched. -/
theorem seg_step5_spec (env : Env) (loc : String) (cc : ContextContainer)
    (s : Store) (p : Progress) (o3 : Tagged DatePlan)
    (hp : s.progress = some p) (hst : p.status = JobStatus.processing)
    (hlen : p.cultural_previews.length = 4) (h3 : cc.out_3 = some o3) :
    (∃ s1 ev m, seg_step5 env loc cc s = .raised s1 ev m
       ∧ env.discoverer = CallRes.raises
       ∧ procPairs ev = [(5, 83)]
       ∧ (previewLens ev).all (fun n => decide (n ≤ 8)) = true
       ∧ octxStores ev = []
       ∧ ∃ p1, s1.progress = some p1 ∧ p1.current_step = 5
           ∧ p1.cultural_previews.length ≤ 8)
    ∨ (∃ s1 ev, seg_step5 env loc cc s = .done s1 ev
       ∧ env.discoverer = CallRes.ok none
       ∧ procPairs ev = [(5, 83)]
       ∧ (previewLens ev).all (fun n => decide (n ≤ 8)) = true
       ∧ octxStores ev = []
       ∧ ∃ p1, s1.progress = some p1 ∧ p1.status = JobStatus.error
           ∧ p1.current_step = 5)
    ∨ (∃ s1 ev tv cc1, seg_step5 env loc cc s = .next s1 ev (tv, cc1)
       ∧ procPairs ev = [(5, 83), (5, 83), (5, 83)]
       ∧ (previewLens ev).all (fun n => decide (n ≤ 8)) = true
       ∧ octxStores ev = [some cc.original_context]
       ∧ noResultWrite ev = true
       ∧ extTags ev = ["step5_discoverer"]
       ∧ s1.result = s.result
       ∧ cc1.original_context = cc.original_context
       ∧ cc1.out_5 = some tv
       ∧ ∃ p1, s1.progress = some p1 ∧ p1.status = JobStatus.processing
           ∧ p1.current_step = 5 ∧ p1.cultural_previews.length = 6) := by
  rcases hdi : env.discoverer with o | _
  · rcases o with _ | vp
    · refine Or.inr (Or.inl ?_)
      rcases hq : seg_step5 env loc cc s with ⟨s1, ev⟩ | ⟨s1, ev, m⟩ | ⟨s1, ev, v⟩ <;>
        simp [seg_step5, hdi, h3, update_redis_progress, hp, setProgress,
          setResult, handle_redis_processing_error] at hq
      obtain ⟨h1, h2⟩ := hq
      subst h1
      subst h2
      refine ⟨_, _, rfl, rfl, ?_, ?_, ?_, ?_⟩ <;>
        simp [procPairs, previewLens, octxStores, hst, hlen]
    · refine Or.inr (Or.inr ?_)
      rcases hq : seg_step5 env loc cc s with ⟨s1, ev⟩ | ⟨s1, ev, m⟩ | ⟨s1, ev, v⟩ <;>
        simp [seg_step5, hdi, h3, update_redis_progress, hp, setProgress,
          injectContext, update_redis_progress_with_qloo_visibility] at hq
      obtain ⟨h1, h2, h3x⟩ := hq
      subst h1
      subst h2
      subst h3x
      refine ⟨_, _, _, _, rfl, ?_, ?_, ?_, ?_, ?_, ?_, ?_, ?_, ?_⟩ <;>
        simp [procPairs, previewLens, octxStores, noResultWrite, extTags,
          injectContext, lastN, List.length_append, hst, hlen]
  · refine Or.inl ?_
    rcases hq : seg_step5 env loc cc s with ⟨s1, ev⟩ | ⟨s1, ev, m⟩ | ⟨s1, ev, v⟩ <;>
      simp [seg_step5, hdi, h3, update_redis_progress, hp, setProgress] at hq
    obtain ⟨h1, h2, h3x⟩ := hq
    subst h1
    subst h2
    subst h3x
    refine ⟨_, _, _, rfl, rfl, ?_, ?_, ?_, ?_⟩ <;>
      simp [procPairs, previewLens, octxStores, hst, hlen]

/-- Step-6 spec: from a processing job with six previews and a stored
step-5 output, final optimization raises, fails (the job ends in error at
step 6), or completes — storing the tagged final plan with the container
context, appending one capped preview, and leaving the job processing at
step 6 with seven previews and the Result slot untouched. -/
theorem seg_step6_spec (env : Env) (loc : String) (cc : ContextContainer)
    (s : Store) (p : Progress) (o5 : Tagged VenuePlan)
    (hp : s.progress = some p) (hst : p.status = JobStatus.processing)
    (hlen : p.cultural_previews.length = 6) (h5 : cc.out_5 = some o5) :
    (∃ s1 ev m, seg_step6 env loc cc s = .raised s1 ev m
       ∧ env.optimizer = CallRes.raises
       ∧ procPairs ev = [(6, 95)]
       ∧ (previewLens ev).all (fun n => decide (n ≤ 8)) = true
       ∧ octxStores ev = []
       ∧ ∃ p1, s1.progress = some p1 ∧ p1.current_step = 6
           ∧ p1.cultural_previews.length ≤ 8)
    ∨ (∃ s1 ev, seg_step6 env loc cc s = .done s1 ev
       ∧ env.optimizer = CallRes.ok none
       ∧ procPairs ev = [(6, 95)]
       ∧ (previewLens ev).all (fun n => decide (n ≤ 8)) = true
       ∧ octxStores ev = []
       ∧ ∃ p1, s1.progress = some p1 ∧ p1.status = JobStatus.error
           ∧ p1.current_step = 6)
    ∨ (∃ s1 ev tf cc1, seg_step6 env loc cc s = .next s1 ev (tf, cc1)
       ∧ procPairs ev = [(6, 95), (6, 95)]
       ∧ (previewLens ev).all (fun n => decide (n ≤ 8)) = true
       ∧ octxStores ev = [some cc.original_context]
       ∧ noResultWrite ev = true
       ∧ extTags ev = ["step6_optimizer"]
       ∧ s1.result = s.result
       ∧ cc1.original_context = cc.original_context
       ∧ ∃ p1, s1.progress = some p1 ∧ p1.status = JobStatus.processing
           ∧ p1.current_step = 6 ∧ p1.cultural_previews.length = 7) := by
  rcases hop : env.optimizer with o | _
  · rcases o with _ | fp
    · refine Or.inr (Or.inl ?_)
      rcases hq : seg_step6 env loc cc s with ⟨s1, ev⟩ | ⟨s1, ev, m⟩ | ⟨s1, ev, v⟩ <;>
        simp [seg_step6, hop, h5, update_redis_progress, hp, setProgress,
          setResult, handle_redis_processing_error] at hq
      obtain ⟨h1, h2⟩ := hq
      subst h1
      subst h2
      refine ⟨_, _, rfl, rfl, ?_, ?_, ?_, ?_⟩ <;>
        simp [procPairs, previewLens, octxStores, hst, hlen]
    · refine Or.inr (Or.inr ?_)
      rcases hq : seg_step6 env loc cc s with ⟨s1, ev⟩ | ⟨s1, ev, m⟩ | ⟨s1, ev, v⟩ <;>
        simp [seg_step6, hop, h5, update_redis_progress, hp, setProgress,
          injectContext] at hq
      obtain ⟨h1, h2, h3x⟩ := hq
      subst h1
      subst h2
      subst h3x
      refine ⟨_, _, _, _, rfl, ?_, ?_, ?_, ?_, ?_, ?_, ?_, ?_⟩ <;>
        simp [procPairs, previewLens, octxStores, noResultWrite, extTags,
          injectContext, lastN, List.length_append, hst, hlen]
  · refine Or.inl ?_
    rcases hq : seg_step6 env loc cc s with ⟨s1, ev⟩ | ⟨s1, ev, m⟩ | ⟨s1, ev, v⟩ <;>
      simp [seg_step6, hop, h5, update_redis_progress, hp, setProgress] at hq
    obtain ⟨h1, h2, h3x⟩ := hq
    subst h1
    subst h2
    subst h3x
    refine ⟨_, _, _, rfl, rfl, ?_, ?_, ?_, ?_⟩ <;>
      simp [procPairs, previewLens, octxStores, hst, hlen]

/-- Trace lemma for the `try` body: started on a store holding a Request
Record and a preview-free Progress Document, every control path yields a
trace whose processing-status pairs are monotone, whose Progress writes all
carry at most 8 previews, and whose container stores all attach the
normalized submission context. -/
theorem tryBody_trace (env : Env) (req : ReqRecord) (s : Store) (p0 : Progress)
    (hreq : s.request = some req) (hp0 : s.progress = some p0)
    (hlen0 : p0.cultural_previews = []) :
    monoPairs (procPairs (tryBody env s).2) = true
    ∧ (previewLens (tryBody env s).2).all (fun n => decide (n ≤ 8)) = true
    ∧ ∀ o ∈ octxStores (tryBody env s).2,
        o = some (normalize_context req.context) := by
  rcases seg_setup_spec env req s p0 hreq hp0 hlen0 with
    ⟨s1, ev1, hq1, hevd1, hpr1, hlv1, hoc1⟩ |
    ⟨s1, ev1, hq1, hpr1, hlv1, hoc1, hnr1, htg1, hrs1, p1, hp1, hst1, hcs1, hpl1⟩
  · simp only [tryBody, runFlow, hq1]
    refine ⟨?_, ?_, ?_⟩ <;> simp [monoPairs, hpr1, hlv1, hoc1]
  · rcases seg_step1_spec env req (create_context_container req.context) s1 p1
      hp1 hst1 (by simp [hpl1]) with
      ⟨s2, ev2, m2, hq2, hevd2, hpr2, hlv2, hoc2, p2, hp2, hcsx2, hpl2⟩ |
      ⟨s2, ev2, hq2, hevd2, hpr2, hlv2, hoc2, pe2, hpe2, hste2, hcse2⟩ |
      ⟨s2, ev2, ra, rb, cc1, hq2, hpr2, hlv2, hoc2, hnr2, htg2, hrs2, hcc1, p2, hp2, hst2, hcs2, hpl2⟩
    · obtain ⟨htp, htl, hto⟩ := topExcept_spec env m2 s2 p2 hp2 hpl2
      rcases hte : topExcept env m2 s2 with ⟨se, ee⟩
      rw [hte] at htp htl hto
      simp only [tryBody, runFlow, hq1, hq2, hte]
      refine ⟨?_, ?_, ?_⟩ <;>
        simp [procPairs_append, previewLens_append, octxStores_append,
          List.all_append, monoPairs, create_context_container,
          hpr1, hpr2, hlv1, hlv2, hoc1, hoc2, htp, htl, hto]
    · simp only [tryBody, runFlow, hq1, hq2]
      refine ⟨?_, ?_, ?_⟩ <;>
        simp [procPairs_append, previewLens_append, octxStores_append,
          List.all_append, monoPairs, create_context_container,
          hpr1, hpr2, hlv1, hlv2, hoc1, hoc2]
    · cases hc1 : env.cancel1 with
      | true =>
        obtain ⟨sc, evc, hqc, hprc, hlvc, hocc, hnrc, htgc, hrsc, pc, hpc, hstc, hcsc⟩ :=
          cancel_checkpoint_cancelled env.now s2 p2 hp2 (by simp [hpl2])
        simp only [tryBody, runFlow, hq1, hq2, hc1, hqc]
        refine ⟨?_, ?_, ?_⟩ <;>
          simp [procPairs_append, previewLens_append, octxStores_append,
            List.all_append, monoPairs, create_context_container,
            hpr1, hpr2, hprc, hlv1, hlv2, hlvc, hoc1, hoc2, hocc, hcc1]
      | false =>
        have hqc := cancel_checkpoint_not_cancelled env.now s2 p2 hp2 hst2
        rcases seg_step2_spec env cc1 s2 p2 hp2 hst2 hpl2 with
          ⟨s3, ev3, m3, hq3, hevd3, hpr3, hlv3, hoc3, p3, hp3, hcsx3, hpl3⟩ |
          ⟨s3, ev3, hq3, hevd3, hpr3, hlv3, hoc3, pe3, hpe3, hste3, hcse3⟩ |
          ⟨s3, ev3, ta, tb, cc2, hq3, hpr3, hlv3, hoc3, hnr3, htg3, hrs3, hcc2, p3, hp3, hst3, hcs3, hpl3⟩
        · obtain ⟨htp, htl, hto⟩ := topExcept_spec env m3 s3 p3 hp3 hpl3
          rcases hte : topExcept env m3 s3 with ⟨se, ee⟩
          rw [hte] at htp htl hto
          simp only [tryBody, runFlow, hq1, hq2, hc1, hqc, hq3, hte]
          refine ⟨?_, ?_, ?_⟩ <;>
            simp [procPairs_append, previewLens_append, octxStores_append,
              List.all_append, monoPairs, create_context_container,
              hpr1, hpr2, hpr3, hlv1, hlv2, hlv3, hoc1, hoc2, hoc3, hcc1,
              htp, htl, hto]
        · simp only [tryBody, runFlow, hq1, hq2, hc1, hqc, hq3]
          refine ⟨?_, ?_, ?_⟩ <;>
            simp [procPairs_append, previewLens_append, octxStores_append,
              List.all_append, monoPairs, create_context_container,
              hpr1, hpr2, hpr3, hlv1, hlv2, hlv3, hoc1, hoc2, hoc3, hcc1]
        · cases hc2 : env.cancel2 with
          | true =>
            obtain ⟨sc, evc, hqc2, hprc, hlvc, hocc, hnrc, htgc, hrsc, pc, hpc, hstc, hcsc⟩ :=
              cancel_checkpoint_cancelled env.now s3 p3 hp3 (by simp [hpl3])
            simp only [tryBody, runFlow, hq1, hq2, hc1, hqc, hq3, hc2, hqc2]
            refine ⟨?_, ?_, ?_⟩ <;>
              simp [procPairs_append, previewLens_append, octxStores_append,
                List.all_append, monoPairs, create_context_container,
                hpr1, hpr2, hpr3, hprc, hlv1, hlv2, hlv3, hlvc,
                hoc1, hoc2, hoc3, hocc, hcc1, hcc2]
          | false =>
            have hqc2 := cancel_checkpoint_not_cancelled env.now s3 p3 hp3 hst3
            rcases seg_step3_spec env cc2 s3 p3 hp3 hst3 hpl3 with
              ⟨s4, ev4, m4, hq4, hevd4, hpr4, hlv4, hoc4, p4, hp4, hcsx4, hpl4⟩ |
              ⟨s4, ev4, hq4, hevd4, hpr4, hlv4, hoc4, pe4, hpe4, hste4, hcse4⟩ |
              ⟨s4, ev4, td, cc3, hq4, hpr4, hlv4, hoc4, hnr4, htg4, hrs4, hcc3, h3out, p4, hp4, hst4, hcs4, hpl4⟩
            · obtain ⟨htp, htl, hto⟩ := topExcept_spec env m4 s4 p4 hp4 hpl4
              rcases hte : topExcept env m4 s4 with ⟨se, ee⟩
              rw [hte] at htp htl hto
              simp only [tryBody, runFlow, hq1, hq2, hc1, hqc, hq3, hc2, hqc2,
                hq4, hte]
              refine ⟨?_, ?_, ?_⟩ <;>
                simp [procPairs_append, previewLens_append, octxStores_append,
                  List.all_append, monoPairs, create_context_container,
                  hpr1, hpr2, hpr3, hpr4, hlv1, hlv2, hlv3, hlv4,
                  hoc1, hoc2, hoc3, hoc4, hcc1, hcc2, htp, htl, hto]
            · simp only [tryBody, runFlow, hq1, hq2, hc1, hqc, hq3, hc2, hqc2,
                hq4]
              refine ⟨?_, ?_, ?_⟩ <;>
                simp [procPairs_append, previewLens_append, octxStores_append,
                  List.all_append, monoPairs, create_context_container,
                  hpr1, hpr2, hpr3, hpr4, hlv1, hlv2, hlv3, hlv4,
                  hoc1, hoc2, hoc3, hoc4, hcc1, hcc2]
            · cases hc3 : env.cancel3 with
              | true =>
                obtain ⟨sc, evc, hqc3, hprc, hlvc, hocc, hnrc, htgc, hrsc, pc, hpc, hstc, hcsc⟩ :=
                  cancel_checkpoint_cancelled env.now s4 p4 hp4 (by simp [hpl4])
                simp only [tryBody, runFlow, hq1, hq2, hc1, hqc, hq3, hc2,
                  hqc2, hq4, hc3, hqc3]
                refine ⟨?_, ?_, ?_⟩ <;>
                  simp [procPairs_append, previewLens_append, octxStores_append,
                    List.all_append, monoPairs, create_context_container,
                    hpr1, hpr2, hpr3, hpr4, hprc, hlv1, hlv2, hlv3, hlv4, hlvc,
                    hoc1, hoc2, hoc3, hoc4, hocc, hcc1, hcc2, hcc3]
              | false =>
                have hqc3 := cancel_checkpoint_not_cancelled env.now s4 p4 hp4 hst4
                rcases seg_step5_spec env ta.val.user_location cc3 s4 p4 td
                  hp4 hst4 hpl4 h3out with
                  ⟨s5, ev5, m5, hq5, hevd5, hpr5, hlv5, hoc5, p5, hp5, hcsx5, hpl5⟩ |
                  ⟨s5, ev5, hq5, hevd5, hpr5, hlv5, hoc5, pe5, hpe5, hste5, hcse5⟩ |
                  ⟨s5, ev5, tv, cc5, hq5, hpr5, hlv5, hoc5, hnr5, htg5, hrs5, hcc5, h5out, p5, hp5, hst5, hcs5, hpl5⟩
                · obtain ⟨htp, htl, hto⟩ := topExcept_spec env m5 s5 p5 hp5 hpl5
                  rcases hte : topExcept env m5 s5 with ⟨se, ee⟩
                  rw [hte] at htp htl hto
                  simp only [tryBody, runFlow, hq1, hq2, hc1, hqc, hq3, hc2,
                    hqc2, hq4, hc3, hqc3, hq5, hte]
                  refine ⟨?_, ?_, ?_⟩ <;>
                    simp [procPairs_append, previewLens_append,
                      octxStores_append, List.all_append, monoPairs,
                      create_context_container,
                      hpr1, hpr2, hpr3, hpr4, hpr5, hlv1, hlv2, hlv3, hlv4,
                      hlv5, hoc1, hoc2, hoc3, hoc4, hoc5, hcc1, hcc2, hcc3,
                      htp, htl, hto]
                · simp only [tryBody, runFlow, hq1, hq2, hc1, hqc, hq3, hc2,
                    hqc2, hq4, hc3, hqc3, hq5]
                  refine ⟨?_, ?_, ?_⟩ <;>
                    simp [procPairs_append, previewLens_append,
                      octxStores_append, List.all_append, monoPairs,
                      create_context_container,
                      hpr1, hpr2, hpr3, hpr4, hpr5, hlv1, hlv2, hlv3, hlv4,
                      hlv5, hoc1, hoc2, hoc3, hoc4, hoc5, hcc1, hcc2, hcc3]
                · cases hc5 : env.cancel5 with
                  | true =>
                    obtain ⟨sc, evc, hqc5, hprc, hlvc, hocc, hnrc, htgc, hrsc, pc, hpc, hstc, hcsc⟩ :=
                      cancel_checkpoint_cancelled env.now s5 p5 hp5
                        (by simp [hpl5])
                    simp only [tryBody, runFlow, hq1, hq2, hc1, hqc, hq3, hc2,
                      hqc2, hq4, hc3, hqc3, hq5, hc5, hqc5]
                    refine ⟨?_, ?_, ?_⟩ <;>
                      simp [procPairs_append, previewLens_append,
                        octxStores_append, List.all_append, monoPairs,
                        create_context_container,
                        hpr1, hpr2, hpr3, hpr4, hpr5, hprc, hlv1, hlv2, hlv3,
                        hlv4, hlv5, hlvc, hoc1, hoc2, hoc3, hoc4, hoc5, hocc,
                        hcc1, hcc2, hcc3, hcc5]
                  | false =>
                    have hqc5 := cancel_checkpoint_not_cancelled env.now s5 p5
                      hp5 hst5
                    rcases seg_step6_spec env ta.val.user_location cc5 s5 p5 tv
                      hp5 hst5 hpl5 h5out with
                      ⟨s6, ev6, m6, hq6, hevd6, hpr6, hlv6, hoc6, p6, hp6, hcsx6, hpl6⟩ |
                      ⟨s6, ev6, hq6, hevd6, hpr6, hlv6, hoc6, pe6, hpe6, hste6, hcse6⟩ |
                      ⟨s6, ev6, tf, cc6, hq6, hpr6, hlv6, hoc6, hnr6, htg6, hrs6, hcc6, p6, hp6, hst6, hcs6, hpl6⟩
                    · obtain ⟨htp, htl, hto⟩ :=
                        topExcept_spec env m6 s6 p6 hp6 hpl6
                      rcases hte : topExcept env m6 s6 with ⟨se, ee⟩
                      rw [hte] at htp htl hto
                      simp only [tryBody, runFlow, hq1, hq2, hc1, hqc, hq3,
                        hc2, hqc2, hq4, hc3, hqc3, hq5, hc5, hqc5, hq6, hte]
                      refine ⟨?_, ?_, ?_⟩ <;>
                        simp [procPairs_append, previewLens_append,
                          octxStores_append, List.all_append, monoPairs,
                          create_context_container,
                          hpr1, hpr2, hpr3, hpr4, hpr5, hpr6, hlv1, hlv2, hlv3,
                          hlv4, hlv5, hlv6, hoc1, hoc2, hoc3, hoc4, hoc5, hoc6,
                          hcc1, hcc2, hcc3, hcc5, htp, htl, hto]
                    · simp only [tryBody, runFlow, hq1, hq2, hc1, hqc, hq3,
                        hc2, hqc2, hq4, hc3, hqc3, hq5, hc5, hqc5, hq6]
                      refine ⟨?_, ?_, ?_⟩ <;>
                        simp [procPairs_append, previewLens_append,
                          octxStores_append, List.all_append, monoPairs,
                          create_context_container,
                          hpr1, hpr2, hpr3, hpr4, hpr5, hpr6, hlv1, hlv2, hlv3,
                          hlv4, hlv5, hlv6, hoc1, hoc2, hoc3, hoc4, hoc5, hoc6,
                          hcc1, hcc2, hcc3, hcc5]
                    · have hq7 := seg_completion_raises env ta tb tv tf s6
                      obtain ⟨htp, htl, hto⟩ := topExcept_spec env
                        "KeyError: total_entities_discovered" s6 p6 hp6
                        (by simp [hpl6])
                      rcases hte : topExcept env
                        "KeyError: total_entities_discovered" s6 with ⟨se, ee⟩
                      rw [hte] at htp htl hto
                      simp only [tryBody, runFlow, hq1, hq2, hc1, hqc, hq3,
                        hc2, hqc2, hq4, hc3, hqc3, hq5, hc5, hqc5, hq6, hq7,
                        hte]
                      refine ⟨?_, ?_, ?_⟩ <;>
                        simp [procPairs_append, previewLens_append,
                          octxStores_append, List.all_append, monoPairs,
                          create_context_container,
                          hpr1, hpr2, hpr3, hpr4, hpr5, hpr6, hlv1, hlv2, hlv3,
                          hlv4, hlv5, hlv6, hoc1, hoc2, hoc3, hoc4, hoc5, hoc6,
                          hcc1, hcc2, hcc3, hcc5, hcc6, htp, htl, hto]

/-- Splitting the orchestrator run: past the two no-op checks, the run is
the `try` body on the locked store, bracketed by the lock transitions. -/
theorem pipeline_split (env : Env) (s : Store)
    (hc : s.completed = false) (hl : s.lock = false) :
    process_dual_profile_pipeline env s
      = ({ (tryBody env { s with lock := true }).1 with lock := false },
         [Event.acquireLock] ++ (tryBody env { s with lock := true }).2
           ++ [Event.releaseLock]) := by
  rcases htb : tryBody env { s with lock := true } with ⟨sb, eb⟩
  simp only [hc] at htb
  simp [process_dual_profile_pipeline, hc, hl, htb]

/-- Once step 1 has succeeded (parse ok, the text validation passed, no
exception escaped a profile processor, both extractions non-empty), no
control path can end with Progress status `error` at `current_step` 1:
every later failure is recorded at step 2 or beyond, and a cancellation
ends in status `cancelled`. -/
theorem tryBody_step1_passed (env : Env) (req : ReqRecord) (s : Store)
    (p0 : Progress) (ra rb : ReasonRes)
    (hreq : s.request = some req) (hp0 : s.progress = some p0)
    (hlen0 : p0.cultural_previews = [])
    (hpo : env.parse_ok = true)
    (hv : pyTruthy req.profile_a_text = true ∨
          pyTruthy req.profile_b_text = true)
    (hca : env.call_a = ProfileCall.runs ra)
    (hcb : env.call_b = ProfileCall.runs rb)
    (hxa : ¬ extract_text req.profile_a_text env.ocr_a = "")
    (hxb : ¬ extract_text req.profile_b_text env.ocr_b = "") :
    ((tryBody env s).1.progress.map fun p => (p.status, p.current_step))
      ≠ some (JobStatus.error, 1) := by
  rcases seg_setup_spec env req s p0 hreq hp0 hlen0 with
    ⟨s1, ev1, hq1, hevd1, hpr1, hlv1, hoc1⟩ |
    ⟨s1, ev1, hq1, -, -, -, -, -, -, p1, hp1, hst1, hcs1, hpl1⟩
  · rcases hevd1 with hpe | ⟨hfa, hfb⟩
    · rw [hpo] at hpe
      simp at hpe
    · rcases hv with hv1 | hv1
      · rw [hv1] at hfa
        simp at hfa
      · rw [hv1] at hfb
        simp at hfb
  · rcases seg_step1_spec env req (create_context_container req.context) s1 p1
      hp1 hst1 (by simp [hpl1]) with
      ⟨s2, ev2, m2, hq2, hevd2, -, -, -, -, -, -, -⟩ |
      ⟨s2, ev2, hq2, hevd2, -, -, -, -, -, -, -⟩ |
      ⟨s2, ev2, ra2, rb2, cc1, hq2, -, -, -, -, -, -, hcc1, p2, hp2, hst2, hcs2, hpl2⟩
    · rcases hevd2 with h | h
      · rw [hca] at h
        simp at h
      · rw [hcb] at h
        simp at h
    · rcases hevd2 with h | h
      · exact absurd h hxa
      · exact absurd h hxb
    · cases hc1 : env.cancel1 with
      | true =>
        obtain ⟨sc, evc, hqc, -, -, -, -, -, -, pc, hpc, hstc, hcsc⟩ :=
          cancel_checkpoint_cancelled env.now s2 p2 hp2 (by simp [hpl2])
        simp only [tryBody, runFlow, hq1, hq2, hc1, hqc]
        simp [hpc, hstc]
      | false =>
        have hqc := cancel_checkpoint_not_cancelled env.now s2 p2 hp2 hst2
        rcases seg_step2_spec env cc1 s2 p2 hp2 hst2 hpl2 with
          ⟨s3, ev3, m3, hq3, -, -, -, -, p3, hp3, hcsx3, hpl3⟩ |
          ⟨s3, ev3, hq3, -, -, -, -, pe3, hpe3, hste3, hcse3⟩ |
          ⟨s3, ev3, ta, tb, cc2, hq3, -, -, -, -, -, -, hcc2, p3, hp3, hst3, hcs3, hpl3⟩
        · obtain ⟨-, -, -, pf, hpf, hsf, hcf⟩ :=
            topExcept_spec env m3 s3 p3 hp3 hpl3
          rcases hte : topExcept env m3 s3 with ⟨se, ee⟩
          rw [hte] at hpf
          simp only at hpf
          simp only [tryBody, runFlow, hq1, hq2, hc1, hqc, hq3, hte]
          simp [hpf, hsf, hcf, hcsx3]
        · simp only [tryBody, runFlow, hq1, hq2, hc1, hqc, hq3]
          simp [hpe3, hste3, hcse3]
        · cases hc2 : env.cancel2 with
          | true =>
            obtain ⟨sc, evc, hqc2, -, -, -, -, -, -, pc, hpc, hstc, hcsc⟩ :=
              cancel_checkpoint_cancelled env.now s3 p3 hp3 (by simp [hpl3])
            simp only [tryBody, runFlow, hq1, hq2, hc1, hqc, hq3, hc2, hqc2]
            simp [hpc, hstc]
          | false =>
            have hqc2 := cancel_checkpoint_not_cancelled env.now s3 p3 hp3 hst3
            rcases seg_step3_spec env cc2 s3 p3 hp3 hst3 hpl3 with
              ⟨s4, ev4, m4, hq4, -, -, -, -, p4, hp4, hcsx4, hpl4⟩ |
              ⟨s4, ev4, hq4, -, -, -, -, pe4, hpe4, hste4, hcse4⟩ |
              ⟨s4, ev4, td, cc3, hq4, -, -, -, -, -, -, hcc3, h3out, p4, hp4, hst4, hcs4, hpl4⟩
            · obtain ⟨-, -, -, pf, hpf, hsf, hcf⟩ :=
                topExcept_spec env m4 s4 p4 hp4 hpl4
              rcases hte : topExcept env m4 s4 with ⟨se, ee⟩
              rw [hte] at hpf
              simp only at hpf
              simp only [tryBody, runFlow, hq1, hq2, hc1, hqc, hq3, hc2,
                hqc2, hq4, hte]
              simp [hpf, hsf, hcf, hcsx4]
            · simp only [tryBody, runFlow, hq1, hq2, hc1, hqc, hq3, hc2,
                hqc2, hq4]
              simp [hpe4, hste4, hcse4]
            · cases hc3 : env.cancel3 with
              | true =>
                obtain ⟨sc, evc, hqc3, -, -, -, -, -, -, pc, hpc, hstc, hcsc⟩ :=
                  cancel_checkpoint_cancelled env.now s4 p4 hp4 (by simp [hpl4])
                simp only [tryBody, runFlow, hq1, hq2, hc1, hqc, hq3, hc2,
                  hqc2, hq4, hc3, hqc3]
                simp [hpc, hstc]
              | false =>
                have hqc3 := cancel_checkpoint_not_cancelled env.now s4 p4
                  hp4 hst4
                rcases seg_step5_spec env ta.val.user_location cc3 s4 p4 td
                  hp4 hst4 hpl4 h3out with
                  ⟨s5, ev5, m5, hq5, -, -, -, -, p5, hp5, hcsx5, hpl5⟩ |
                  ⟨s5, ev5, hq5, -, -, -, -, pe5, hpe5, hste5, hcse5⟩ |
                  ⟨s5, ev5, tv, cc5, hq5, -, -, -, -, -, -, hcc5, h5out, p5, hp5, hst5, hcs5, hpl5⟩
                · obtain ⟨-, -, -, pf, hpf, hsf, hcf⟩ :=
                    topExcept_spec env m5 s5 p5 hp5 hpl5
                  rcases hte : topExcept env m5 s5 with ⟨se, ee⟩
                  rw [hte] at hpf
                  simp only at hpf
                  simp only [tryBody, runFlow, hq1, hq2, hc1, hqc, hq3, hc2,
                    hqc2, hq4, hc3, hqc3, hq5, hte]
                  simp [hpf, hsf, hcf, hcsx5]
                · simp only [tryBody, runFlow, hq1, hq2, hc1, hqc, hq3, hc2,
                    hqc2, hq4, hc3, hqc3, hq5]
                  simp [hpe5, hste5, hcse5]
                · cases hc5 : env.cancel5 with
                  | true =>
                    obtain ⟨sc, evc, hqc5, -, -, -, -, -, -, pc, hpc, hstc, hcsc⟩ :=
                      cancel_checkpoint_cancelled env.now s5 p5 hp5
                        (by simp [hpl5])
                    simp only [tryBody, runFlow, hq1, hq2, hc1, hqc, hq3,
                      hc2, hqc2, hq4, hc3, hqc3, hq5, hc5, hqc5]
                    simp [hpc, hstc]
                  | false =>
                    have hqc5 := cancel_checkpoint_not_cancelled env.now s5
                      p5 hp5 hst5
                    rcases seg_step6_spec env ta.val.user_location cc5 s5 p5
                      tv hp5 hst5 hpl5 h5out with
                      ⟨s6, ev6, m6, hq6, -, -, -, -, p6, hp6, hcsx6, hpl6⟩ |
                      ⟨s6, ev6, hq6, -, -, -, -, pe6, hpe6, hste6, hcse6⟩ |
                      ⟨s6, ev6, tf, cc6, hq6, -, -, -, -, -, -, hcc6, p6, hp6, hst6, hcs6, hpl6⟩
                    · obtain ⟨-, -, -, pf, hpf, hsf, hcf⟩ :=
                        topExcept_spec env m6 s6 p6 hp6 hpl6
                      rcases hte : topExcept env m6 s6 with ⟨se, ee⟩
                      rw [hte] at hpf
                      simp only at hpf
                      simp only [tryBody, runFlow, hq1, hq2, hc1, hqc, hq3,
                        hc2, hqc2, hq4, hc3, hqc3, hq5, hc5, hqc5, hq6, hte]
                      simp [hpf, hsf, hcf, hcsx6]
                    · simp only [tryBody, runFlow, hq1, hq2, hc1, hqc, hq3,
                        hc2, hqc2, hq4, hc3, hqc3, hq5, hc5, hqc5, hq6]
                      simp [hpe6, hste6, hcse6]
                    · have hq7 := seg_completion_raises env ta tb tv tf s6
                      obtain ⟨-, -, -, pf, hpf, hsf, hcf⟩ := topExcept_spec env
                        "KeyError: total_entities_discovered" s6 p6 hp6
                        (by simp [hpl6])
                      rcases hte : topExcept env
                        "KeyError: total_entities_discovered" s6 with ⟨se, ee⟩
                      rw [hte] at hpf
                      simp only at hpf
                      simp only [tryBody, runFlow, hq1, hq2, hc1, hqc, hq3,
                        hc2, hqc2, hq4, hc3, hqc3, hq5, hc5, hqc5, hq6, hq7,
                        hte]
                      simp [hpf, hsf, hcf, hcs6]

/-- Master trace lemma, composed from the per-segment specs: for every
environment and submission, (1) the (current_step, overall_progress) pairs
of processing-status Progress writes never decrease, (2) every Progress
write carries at most 8 cultural previews, and (3) every context-container
store attaches exactly the normalized submission context. -/
theorem pipeline_trace_master (env : Env) (req : ReqRecord) (t : Nat) :
    monoPairs (procPairs (process_dual_profile_pipeline env (submissionStore req t)).2) = true
    ∧ previewsOK (process_dual_profile_pipeline env (submissionStore req t)).2 = true
    ∧ storeCtxOK (normalize_context req.context)
        (process_dual_profile_pipeline env (submissionStore req t)).2 := by
  obtain ⟨h1, h2, h3⟩ := tryBody_trace env req
    { submissionStore req t with lock := true } (initial_progress t)
    rfl rfl (initial_progress_previews t)
  rw [pipeline_split env (submissionStore req t) rfl rfl]
  refine ⟨?_, ?_, ?_⟩
  · simpa [procPairs_append, procPairs, monoPairs] using h1
  · rw [previewsOK_eq]
    simpa [previewLens_append, previewLens] using h2
  · rw [storeCtxOK_iff]
    simpa [octxStores_append, octxStores] using h3

/-- Projection of `cultural_previews` through an if-then-else. -/
theorem cultural_previews_ite (c : Prop) [Decidable c] (a b : Progress) :
    (ite c a b).cultural_previews
      = ite c a.cultural_previews b.cultural_previews := by
  split <;> rfl

/-- Helper: whenever `update_redis_progress` appends a cultural preview, the
written document keeps exactly the last 8 entries of the appended list. -/
theorem update_previews_cap (now : Nat) (a : UpdArgs) (s : Store)
    (p : Progress) (c : String)
    (hp : s.progress = some p) (hc : a.cultural_preview = some c) :
    ((update_redis_progress now a s).1.progress.map
      fun q => q.cultural_previews)
      = some (lastN 8 (p.cultural_previews ++ [c])) := by
  obtain ⟨st, cs, op, ss, sv, du, pv, cp⟩ := a
  simp only at hc
  subst hc
  cases st <;> cases cs <;> cases op <;> cases ss <;> cases sv <;>
    simp [update_redis_progress, setProgress, hp, Steps.update,
      cultural_previews_ite]

/-- Helper: `_normalize_context` is the identity on a context whose five
fields are present, already lower-case and stripped, with a valid
location. -/
theorem normalize_context_preserves (c : SubmittedCtx) (l tod se du dt : String)
    (hc : c = { location := some l, time_of_day := some tod,
                season := some se, duration := some du,
                date_type := some dt })
    (h1 : pyStrip (pyLower l) = l) (h2 : pyStrip (pyLower tod) = tod)
    (h3 : pyStrip (pyLower se) = se) (h4 : pyStrip du = du)
    (h5 : pyStrip (pyLower dt) = dt)
    (h6 : ¬ (l = "" ∨ l = "unknown" ∨ l = "none")) :
    normalize_context c = { location := l, time_of_day := tod, season := se,
                            duration := du, date_type := dt } := by
  subst hc
  simp [normalize_context, pyStr, h1, h2, h3, h4, h5, h6]

/-! ## Claims -/

/-- C1: on a run in which every external stage call succeeds, the
termination protocol never executes: `extract_qloo_insights_for_judges`
nests the totals that main.py line 1114 reads at the dict's top level, so
building the final response raises `KeyError`; the job ends with Progress
status `error` at step 6, only an error Result Document (success = false)
is written, no completion marker is set and no embedded-result write
happens — instead of the claimed write-result(24h) / embed / complete-100 /
completed-marker / release-lock sequence. -/
theorem C1_success_path_keyerror :
    qlooTopGet (extract_qloo_insights_for_judges c1ea c1eb c1vp)
      "total_entities_discovered" = none
    ∧ Event.extCall "step6_optimizer" ∈ runC1.2
    ∧ (runC1.1.progress.map fun p => (p.status, p.current_step))
        = some (JobStatus.error, 6)
    ∧ (runC1.1.result.map fun r => (r.success, r.failed_at_step))
        = some (false, some 6)
    ∧ runC1.1.completed = false
    ∧ noCompletedWrite runC1.2 = true
    ∧ onlyErrorResults runC1.2 = true
    ∧ runC1.1.lock = false := by
  decide

/-- C2 counterexample: with both step-1 reasoning calls failing (timeout
and rate limit) and all later stages healthy, the pipeline performs step-2
stage work and its final current_step is 6, not 1 — so profile-analysis
reasoning failure is not fatal at step 1 as the claim states. -/
theorem C2_counterexample :
    Event.extCall "step2_enrich_a" ∈ runC2.2
    ∧ (runC2.1.progress.map fun p => p.current_step) = some 6
    ∧ ¬ (runC2.1.progress.map fun p => p.current_step) = some 1 := by
  decide

/-- C2 (amended): step-1 reasoning failures are absorbed — the analyzer
substitutes a fallback analysis (`fallback_used = true`) and the profile
processor still reports success, so the orchestrator continues into step 2.
Barring an exception escaping a profile processor, a job terminates at
step 1 with Progress status `error` and an error Result Document
(success = false, failed_at_step = 1) exactly when (a) the pre-analysis
text validation fails — neither profile supplies non-empty direct text;
the check never consults images, so no stage call (no OCR) is made — or
(b) the validation passes but at least one profile's combined extracted
text (direct text plus OCR) is empty; when the validation passes, both
processors run and both extractions are non-empty, no control path ends in
error at step 1. -/
theorem C2_reasoning_failure_absorbed (env : Env) (req : ReqRecord) (t : Nat)
    (rA rB : String) (ea eb : EnrichResult)
    (hca : env.call_a = .runs (.invalid rA))
    (hcb : env.call_b = .runs (.invalid rB))
    (hpo : env.parse_ok = true) (hta : pyTruthy req.profile_a_text = true)
    (hxa : ¬ extract_text req.profile_a_text env.ocr_a = "")
    (hxb : ¬ extract_text req.profile_b_text env.ocr_b = "")
    (hc1 : env.cancel1 = false)
    (hena : env.enrich_a = .ok ea) (henb : env.enrich_b = .ok eb)
    (hsa : ea.success = true) (hsb : eb.success = true) :
    (∀ r, process_profile_with_context req.profile_a_text env.ocr_a env.call_a
        = some r →
      r.val.success = true
      ∧ (r.val.analysis.map fun a => a.fallback_used) = some true)
    ∧ Event.extCall "step2_enrich_a"
        ∈ (process_dual_profile_pipeline env (submissionStore req t)).2
    ∧ (∀ env2 req2 t2, env2.parse_ok = true →
        pyTruthy req2.profile_a_text = false →
        pyTruthy req2.profile_b_text = false →
        ((process_dual_profile_pipeline env2 (submissionStore req2 t2)).1.progress.map
            fun p => (p.status, p.current_step)) = some (JobStatus.error, 1)
        ∧ ((process_dual_profile_pipeline env2 (submissionStore req2 t2)).1.result.map
            fun r => (r.success, r.failed_at_step)) = some (false, some 1)
        ∧ extTags (process_dual_profile_pipeline env2 (submissionStore req2 t2)).2
            = [])
    ∧ (∀ env2 req2 t2 r1 r2, env2.parse_ok = true →
        (pyTruthy req2.profile_a_text = true ∨
         pyTruthy req2.profile_b_text = true) →
        env2.call_a = .runs r1 → env2.call_b = .runs r2 →
        (extract_text req2.profile_a_text env2.ocr_a = "" ∨
         extract_text req2.profile_b_text env2.ocr_b = "") →
        ((process_dual_profile_pipeline env2 (submissionStore req2 t2)).1.progress.map
            fun p => (p.status, p.current_step)) = some (JobStatus.error, 1)
        ∧ ((process_dual_profile_pipeline env2 (submissionStore req2 t2)).1.result.map
            fun r => (r.success, r.failed_at_step)) = some (false, some 1))
    ∧ (∀ env2 req2 t2 r1 r2, env2.parse_ok = true →
        (pyTruthy req2.profile_a_text = true ∨
         pyTruthy req2.profile_b_text = true) →
        env2.call_a = .runs r1 → env2.call_b = .runs r2 →
        ¬ extract_text req2.profile_a_text env2.ocr_a = "" →
        ¬ extract_text req2.profile_b_text env2.ocr_b = "" →
        ((process_dual_profile_pipeline env2 (submissionStore req2 t2)).1.progress.map
            fun p => (p.status, p.current_step)) ≠ some (JobStatus.error, 1)) := by
  refine ⟨?_, ?_, ?_, ?_, ?_⟩
  · intro r h
    rw [hca] at h
    simp only [process_profile_with_context, hxa, if_neg, ite_false,
      Option.some.injEq] at h
    subst h
    simp only [analyze_profile_with_context, fallback_analysis, Option.map]
    constructor
    · trivial
    · split <;> rfl
  · simp [process_dual_profile_pipeline, submissionStore, tryBody, runFlow,
      seg_setup, seg_step1, seg_step2, cancel_checkpoint,
      update_redis_progress, update_redis_progress_with_qloo_visibility,
      setProgress, cancel_date_plan, check_redis_cancellation,
      create_context_container, process_profile_with_context,
      injectContext, lastN,
      initial_progress_status, initial_progress_current_step,
      initial_progress_overall, initial_progress_previews, *]
  · intro env2 req2 t2 hpo2 hfa hfb
    refine ⟨?_, ?_, ?_⟩ <;>
      simp [process_dual_profile_pipeline, submissionStore, tryBody, runFlow,
        seg_setup, handle_redis_processing_error, update_redis_progress,
        setProgress, setResult, extTags,
        initial_progress_status, initial_progress_current_step,
        initial_progress_overall, initial_progress_previews, *]
  · intro env2 req2 t2 r1 r2 hpo2 hv2 hca2 hcb2 hxe
    have hvcond : ¬ (pyTruthy req2.profile_a_text = false ∧
        pyTruthy req2.profile_b_text = false) := by
      rcases hv2 with h | h <;> simp [h]
    rcases hxe with hx | hx
    · by_cases hy : extract_text req2.profile_b_text env2.ocr_b = "" <;>
        constructor <;>
          simp [process_dual_profile_pipeline, submissionStore, tryBody,
            runFlow, seg_setup, seg_step1, handle_redis_processing_error,
            update_redis_progress, setProgress, setResult,
            create_context_container, process_profile_with_context,
            initial_progress_status, initial_progress_current_step,
            initial_progress_overall, initial_progress_previews, hvcond, *]
    · by_cases hy : extract_text req2.profile_a_text env2.ocr_a = "" <;>
        constructor <;>
          simp [process_dual_profile_pipeline, submissionStore, tryBody,
            runFlow, seg_setup, seg_step1, handle_redis_processing_error,
            update_redis_progress, setProgress, setResult,
            create_context_container, process_profile_with_context,
            initial_progress_status, initial_progress_current_step,
            initial_progress_overall, initial_progress_previews, hvcond, *]
  · intro env2 req2 t2 r1 r2 hpo2 hv2 hca2 hcb2 hxa2 hxb2
    rw [pipeline_split env2 (submissionStore req2 t2) rfl rfl]
    simpa using tryBody_step1_passed env2 req2
      { submissionStore req2 t2 with lock := true } (initial_progress t2)
      r1 r2 rfl rfl (initial_progress_previews t2) hpo2 hv2 hca2 hcb2
      hxa2 hxb2

/-- C2 witness: the amended claim instantiated at the concrete failing-
reasoning environment and a profile pair with text. -/
theorem C2_reasoning_failure_absorbed_witness :
    c2env.call_a = ProfileCall.runs (ReasonRes.invalid "openai_timeout")
    ∧ c2env.parse_ok = true
    ∧ ¬ extract_text c1req.profile_a_text c2env.ocr_a = ""
    ∧ Event.extCall "step2_enrich_a"
        ∈ (process_dual_profile_pipeline c2env (submissionStore c1req 0)).2 :=
  ⟨rfl, rfl, by decide,
   (C2_reasoning_failure_absorbed c2env c1req 0 "openai_timeout" "rate_limit"
      c1ea c1eb rfl rfl rfl (by decide) (by decide) (by decide) rfl rfl rfl
      rfl rfl).2.1⟩

/-- C3: a completed marker, or an existing processing lock, makes the
orchestrator invocation a pure no-op: the store is unchanged and the effect
trace is empty — no Request Record read, no stage call, no Progress or
Result write; invoking again after a run whose completion marker is set
therefore writes nothing. -/
theorem C3_duplicate_invocation_noop (env : Env) (s : Store) :
    (s.completed = true → process_dual_profile_pipeline env s = (s, []))
    ∧ (s.lock = true → process_dual_profile_pipeline env s = (s, [])) := by
  constructor
  · intro h
    simp [process_dual_profile_pipeline, h]
  · intro h
    by_cases hc : s.completed = true <;>
      simp [process_dual_profile_pipeline, h, hc]

/-- C3 witness: both no-op checks at concrete stores. -/
theorem C3_duplicate_invocation_noop_witness :
    ({ completed := true } : Store).completed = true
    ∧ ({ lock := true } : Store).lock = true
    ∧ process_dual_profile_pipeline {} { completed := true }
        = ({ completed := true }, [])
    ∧ process_dual_profile_pipeline {} { lock := true }
        = ({ lock := true }, []) :=
  ⟨rfl, rfl, (C3_duplicate_invocation_noop {} { completed := true }).1 rfl,
   (C3_duplicate_invocation_noop {} { lock := true }).2 rfl⟩

/-- C4: on every path on which the orchestrator acquired the processing
lock (no completed marker, no pre-existing lock), the lock is absent from
the final store and the trace contains its release — for success, every
stage failure, cancellation, missing request data and injected exceptions
alike, since the release happens in the guaranteed-cleanup path. -/
theorem C4_lock_released (env : Env) (s : Store)
    (hc : s.completed = false) (hl : s.lock = false) :
    (process_dual_profile_pipeline env s).1.lock = false
    ∧ Event.releaseLock ∈ (process_dual_profile_pipeline env s).2 := by
  simp [process_dual_profile_pipeline, hc, hl]

/-- C4 witness. -/
theorem C4_lock_released_witness :
    ({} : Store).completed = false ∧ ({} : Store).lock = false
    ∧ (process_dual_profile_pipeline c1env {}).1.lock = false
    ∧ Event.releaseLock ∈ (process_dual_profile_pipeline c1env {}).2 :=
  ⟨rfl, rfl, (C4_lock_released c1env {} rfl rfl).1,
   (C4_lock_released c1env {} rfl rfl).2⟩

/-- C5 counterexample: calling cancel on a completed job is not a no-op —
it overwrites the Progress status from `complete` to `cancelled` (so the
store changes), although the Result Document itself stays untouched. -/
theorem C5_counterexample :
    (c5doneStore.progress.map fun p => p.status) = some JobStatus.complete
    ∧ (cancel_date_plan 5 c5doneStore).1.progress ≠ c5doneStore.progress
    ∧ ((cancel_date_plan 5 c5doneStore).1.progress.map fun p => p.status)
        = some JobStatus.cancelled
    ∧ (cancel_date_plan 5 c5doneStore).1.result = c5doneStore.result := by
  decide

/-- C5 (amended): a cancel that lands between stages — at any of the four
between-stage points: after step 1, after step 2, after steps 3-4, or
after step 5 — is observed by the next cancellation check: the
orchestrator stops with Progress status `cancelled` at the step it had
reached, performs no further stage work (the trace's external calls are
exactly those of the completed stages) and never writes a Result Document;
a cancel issued after completion leaves the Result Document unchanged but
does set the Progress status to `cancelled`, so it is not a pure no-op. -/
theorem C5_cancellation_between_stages (env : Env) (req : ReqRecord) (t : Nat)
    (ra rb : ReasonRes)
    (hpo : env.parse_ok = true) (hta : pyTruthy req.profile_a_text = true)
    (hca : env.call_a = .runs ra) (hcb : env.call_b = .runs rb)
    (hxa : ¬ extract_text req.profile_a_text env.ocr_a = "")
    (hxb : ¬ extract_text req.profile_b_text env.ocr_b = "") :
    (env.cancel1 = true →
      ((process_dual_profile_pipeline env (submissionStore req t)).1.progress.map
          fun p => (p.status, p.current_step)) = some (JobStatus.cancelled, 1)
      ∧ (process_dual_profile_pipeline env (submissionStore req t)).1.result = none
      ∧ extTags (process_dual_profile_pipeline env (submissionStore req t)).2
          = ["step1_profile_a", "step1_profile_b"]
      ∧ noResultWrite
          (process_dual_profile_pipeline env (submissionStore req t)).2 = true
      ∧ Event.extCall "step2_enrich_a"
          ∉ (process_dual_profile_pipeline env (submissionStore req t)).2
      ∧ Event.extCall "step3_engine"
          ∉ (process_dual_profile_pipeline env (submissionStore req t)).2
      ∧ Event.extCall "step5_discoverer"
          ∉ (process_dual_profile_pipeline env (submissionStore req t)).2
      ∧ Event.extCall "step6_optimizer"
          ∉ (process_dual_profile_pipeline env (submissionStore req t)).2)
    ∧ (∀ ea eb, env.cancel1 = false → env.cancel2 = true →
        env.enrich_a = .ok ea → env.enrich_b = .ok eb →
        ea.success = true → eb.success = true →
        ((process_dual_profile_pipeline env (submissionStore req t)).1.progress.map
            fun p => (p.status, p.current_step)) = some (JobStatus.cancelled, 2)
        ∧ (process_dual_profile_pipeline env (submissionStore req t)).1.result = none
        ∧ extTags (process_dual_profile_pipeline env (submissionStore req t)).2
            = ["step1_profile_a", "step1_profile_b",
               "step2_enrich_a", "step2_enrich_b"]
        ∧ noResultWrite
            (process_dual_profile_pipeline env (submissionStore req t)).2 = true
        ∧ Event.extCall "step3_engine"
            ∉ (process_dual_profile_pipeline env (submissionStore req t)).2
        ∧ Event.extCall "step5_discoverer"
            ∉ (process_dual_profile_pipeline env (submissionStore req t)).2
        ∧ Event.extCall "step6_optimizer"
            ∉ (process_dual_profile_pipeline env (submissionStore req t)).2)
    ∧ (∀ ea eb dp, env.cancel1 = false → env.cancel2 = false →
        env.cancel3 = true →
        env.enrich_a = .ok ea → env.enrich_b = .ok eb →
        ea.success = true → eb.success = true →
        env.engine = .ok (some dp) → pyTruthy dp.error = false →
        ((process_dual_profile_pipeline env (submissionStore req t)).1.progress.map
            fun p => (p.status, p.current_step)) = some (JobStatus.cancelled, 4)
        ∧ (process_dual_profile_pipeline env (submissionStore req t)).1.result = none
        ∧ extTags (process_dual_profile_pipeline env (submissionStore req t)).2
            = ["step1_profile_a", "step1_profile_b",
               "step2_enrich_a", "step2_enrich_b", "step3_engine"]
        ∧ noResultWrite
            (process_dual_profile_pipeline env (submissionStore req t)).2 = true
        ∧ Event.extCall "step5_discoverer"
            ∉ (process_dual_profile_pipeline env (submissionStore req t)).2
        ∧ Event.extCall "step6_optimizer"
            ∉ (process_dual_profile_pipeline env (submissionStore req t)).2)
    ∧ (∀ ea eb dp vp, env.cancel1 = false → env.cancel2 = false →
        env.cancel3 = false → env.cancel5 = true →
        env.enrich_a = .ok ea → env.enrich_b = .ok eb →
        ea.success = true → eb.success = true →
        env.engine = .ok (some dp) → pyTruthy dp.error = false →
        env.discoverer = .ok (some vp) →
        ((process_dual_profile_pipeline env (submissionStore req t)).1.progress.map
            fun p => (p.status, p.current_step)) = some (JobStatus.cancelled, 5)
        ∧ (process_dual_profile_pipeline env (submissionStore req t)).1.result = none
        ∧ extTags (process_dual_profile_pipeline env (submissionStore req t)).2
            = ["step1_profile_a", "step1_profile_b",
               "step2_enrich_a", "step2_enrich_b", "step3_engine",
               "step5_discoverer"]
        ∧ noResultWrite
            (process_dual_profile_pipeline env (submissionStore req t)).2 = true
        ∧ Event.extCall "step6_optimizer"
            ∉ (process_dual_profile_pipeline env (submissionStore req t)).2)
    ∧ (∀ now2 s2 p2, s2.progress = some p2 →
        p2.status = JobStatus.complete →
        (cancel_date_plan now2 s2).1.result = s2.result
        ∧ ((cancel_date_plan now2 s2).1.progress.map fun q => q.status)
            = some JobStatus.cancelled) := by
  rcases seg_setup_spec env req { submissionStore req t with lock := true }
    (initial_progress t) rfl rfl (initial_progress_previews t) with
    ⟨s1, ev1, hq1, hevd1, -, -, -⟩ |
    ⟨s1, ev1, hq1, -, -, -, hnr1, htg1, hrs1, p1, hp1, hst1, hcs1, hpl1⟩
  · rcases hevd1 with hpe | ⟨hfa, hfb⟩
    · rw [hpo] at hpe
      simp at hpe
    · rw [hta] at hfa
      simp at hfa
  · rcases seg_step1_spec env req (create_context_container req.context) s1 p1
      hp1 hst1 (by simp [hpl1]) with
      ⟨s2, ev2, m2, hq2, hevd2, -, -, -, -, -, -, -⟩ |
      ⟨s2, ev2, hq2, hevd2, -, -, -, -, -, -, -⟩ |
      ⟨s2, ev2, ra2, rb2, cc1, hq2, -, -, -, hnr2, htg2, hrs2, hcc1, p2, hp2, hst2, hcs2, hpl2⟩
    · rcases hevd2 with h | h
      · rw [hca] at h
        simp at h
      · rw [hcb] at h
        simp at h
    · rcases hevd2 with h | h
      · exact absurd h hxa
      · exact absurd h hxb
    · refine ⟨?_, ?_, ?_, ?_, ?_⟩
      · intro hc1
        obtain ⟨sc, evc, hqc, -, -, -, hnrc, htgc, hrsc, pc, hpc, hstc, hcsc⟩ :=
          cancel_checkpoint_cancelled env.now s2 p2 hp2 (by simp [hpl2])
        rw [pipeline_split env (submissionStore req t) rfl rfl]
        simp only [tryBody, runFlow, hq1, hq2, hc1, hqc]
        refine ⟨?_, ?_, ?_, ?_, ?_, ?_, ?_, ?_⟩
        · simp [hpc, hstc, hcsc, hcs2]
        · simp [hrsc, hrs2, hrs1, submissionStore]
        · simp only [extTags_append, htg1, htg2, htgc]
          simp [extTags]
        · simp only [noResultWrite_append, hnr1, hnr2, hnrc]
          simp [noResultWrite]
        all_goals
          intro hmem
          have hmt := extCall_mem_extTags _ _ hmem
          simp only [extTags_append, htg1, htg2, htgc] at hmt
          simp [extTags] at hmt
      · intro ea eb hc1 hc2 hena henb hsa hsb
        have hqc := cancel_checkpoint_not_cancelled env.now s2 p2 hp2 hst2
        rcases seg_step2_spec env cc1 s2 p2 hp2 hst2 hpl2 with
          ⟨s3, ev3, m3, hq3, hevd3, -, -, -, -, -, -, -⟩ |
          ⟨s3, ev3, hq3, hevd3, -, -, -, -, -, -, -⟩ |
          ⟨s3, ev3, ta, tb, cc2, hq3, -, -, -, hnr3, htg3, hrs3, hcc2, p3, hp3, hst3, hcs3, hpl3⟩
        · rcases hevd3 with h | h
          · rw [hena] at h
            simp at h
          · rw [henb] at h
            simp at h
        · obtain ⟨ea2, eb2, he1, he2, hf⟩ := hevd3
          rw [hena] at he1
          rw [henb] at he2
          have hea2 : ea2 = ea := by simpa using he1.symm
          have heb2 : eb2 = eb := by simpa using he2.symm
          rw [hea2, heb2] at hf
          rcases hf with hf | hf
          · rw [hf] at hsa
            simp at hsa
          · rw [hf] at hsb
            simp at hsb
        · obtain ⟨sc, evc, hqc2, -, -, -, hnrc, htgc, hrsc, pc, hpc, hstc, hcsc⟩ :=
            cancel_checkpoint_cancelled env.now s3 p3 hp3 (by simp [hpl3])
          rw [pipeline_split env (submissionStore req t) rfl rfl]
          simp only [tryBody, runFlow, hq1, hq2, hc1, hqc, hq3, hc2, hqc2]
          refine ⟨?_, ?_, ?_, ?_, ?_, ?_, ?_⟩
          · simp [hpc, hstc, hcsc, hcs3]
          · simp [hrsc, hrs3, hrs2, hrs1, submissionStore]
          · simp only [extTags_append, htg1, htg2, htg3, htgc]
            simp [extTags]
          · simp only [noResultWrite_append, hnr1, hnr2, hnr3, hnrc]
            simp [noResultWrite]
          all_goals
            intro hmem
            have hmt := extCall_mem_extTags _ _ hmem
            simp only [extTags_append, htg1, htg2, htg3, htgc] at hmt
            simp [extTags] at hmt
      · intro ea eb dp hc1 hc2 hc3 hena henb hsa hsb heng herr
        have hqc := cancel_checkpoint_not_cancelled env.now s2 p2 hp2 hst2
        rcases seg_step2_spec env cc1 s2 p2 hp2 hst2 hpl2 with
          ⟨s3, ev3, m3, hq3, hevd3, -, -, -, -, -, -, -⟩ |
          ⟨s3, ev3, hq3, hevd3, -, -, -, -, -, -, -⟩ |
          ⟨s3, ev3, ta, tb, cc2, hq3, -, -, -, hnr3, htg3, hrs3, hcc2, p3, hp3, hst3, hcs3, hpl3⟩
        · rcases hevd3 with h | h
          · rw [hena] at h
            simp at h
          · rw [henb] at h
            simp at h
        · obtain ⟨ea2, eb2, he1, he2, hf⟩ := hevd3
          rw [hena] at he1
          rw [henb] at he2
          have hea2 : ea2 = ea := by simpa using he1.symm
          have heb2 : eb2 = eb := by simpa using he2.symm
          rw [hea2, heb2] at hf
          rcases hf with hf | hf
          · rw [hf] at hsa
            simp at hsa
          · rw [hf] at hsb
            simp at hsb
        · have hqc2 := cancel_checkpoint_not_cancelled env.now s3 p3 hp3 hst3
          rcases seg_step3_spec env cc2 s3 p3 hp3 hst3 hpl3 with
            ⟨s4, ev4, m4, hq4, hevd4, -, -, -, -, -, -⟩ |
            ⟨s4, ev4, hq4, hevd4, -, -, -, -, -, -⟩ |
            ⟨s4, ev4, td, cc3, hq4, -, -, -, hnr4, htg4, hrs4, hcc3, h3out, p4, hp4, hst4, hcs4, hpl4⟩
          · rw [heng] at hevd4
            simp at hevd4
          · rcases hevd4 with h | ⟨dp2, h, htr⟩
            · rw [heng] at h
              simp at h
            · rw [heng] at h
              have hdp2 : dp2 = dp := by simpa using h.symm
              rw [hdp2] at htr
              rw [htr] at herr
              simp at herr
          · obtain ⟨sc, evc, hqc3, -, -, -, hnrc, htgc, hrsc, pc, hpc, hstc, hcsc⟩ :=
              cancel_checkpoint_cancelled env.now s4 p4 hp4 (by simp [hpl4])
            rw [pipeline_split env (submissionStore req t) rfl rfl]
            simp only [tryBody, runFlow, hq1, hq2, hc1, hqc, hq3, hc2, hqc2,
              hq4, hc3, hqc3]
            refine ⟨?_, ?_, ?_, ?_, ?_, ?_⟩
            · simp [hpc, hstc, hcsc, hcs4]
            · simp [hrsc, hrs4, hrs3, hrs2, hrs1, submissionStore]
            · simp only [extTags_append, htg1, htg2, htg3, htg4, htgc]
              simp [extTags]
            · simp only [noResultWrite_append, hnr1, hnr2, hnr3, hnr4, hnrc]
              simp [noResultWrite]
            all_goals
              intro hmem
              have hmt := extCall_mem_extTags _ _ hmem
              simp only [extTags_append, htg1, htg2, htg3, htg4, htgc] at hmt
              simp [extTags] at hmt
      · intro ea eb dp vp hc1 hc2 hc3 hc5 hena henb hsa hsb heng herr hdis
        have hqc := cancel_checkpoint_not_cancelled env.now s2 p2 hp2 hst2
        rcases seg_step2_spec env cc1 s2 p2 hp2 hst2 hpl2 with
          ⟨s3, ev3, m3, hq3, hevd3, -, -, -, -, -, -, -⟩ |
          ⟨s3, ev3, hq3, hevd3, -, -, -, -, -, -, -⟩ |
          ⟨s3, ev3, ta, tb, cc2, hq3, -, -, -, hnr3, htg3, hrs3, hcc2, p3, hp3, hst3, hcs3, hpl3⟩
        · rcases hevd3 with h | h
          · rw [hena] at h
            simp at h
          · rw [henb] at h
            simp at h
        · obtain ⟨ea2, eb2, he1, he2, hf⟩ := hevd3
          rw [hena] at he1
          rw [henb] at he2
          have hea2 : ea2 = ea := by simpa using he1.symm
          have heb2 : eb2 = eb := by simpa using he2.symm
          rw [hea2, heb2] at hf
          rcases hf with hf | hf
          · rw [hf] at hsa
            simp at hsa
          · rw [hf] at hsb
            simp at hsb
        · have hqc2 := cancel_checkpoint_not_cancelled env.now s3 p3 hp3 hst3
          rcases seg_step3_spec env cc2 s3 p3 hp3 hst3 hpl3 with
            ⟨s4, ev4, m4, hq4, hevd4, -, -, -, -, -, -⟩ |
            ⟨s4, ev4, hq4, hevd4, -, -, -, -, -, -⟩ |
            ⟨s4, ev4, td, cc3, hq4, -, -, -, hnr4, htg4, hrs4, hcc3, h3out, p4, hp4, hst4, hcs4, hpl4⟩
          · rw [heng] at hevd4
            simp at hevd4
          · rcases hevd4 with h | ⟨dp2, h, htr⟩
            · rw [heng] at h
              simp at h
            · rw [heng] at h
              have hdp2 : dp2 = dp := by simpa using h.symm
              rw [hdp2] at htr
              rw [htr] at herr
              simp at herr
          · have hqc3 := cancel_checkpoint_not_cancelled env.now s4 p4 hp4 hst4
            rcases seg_step5_spec env ta.val.user_location cc3 s4 p4 td
              hp4 hst4 hpl4 h3out with
              ⟨s5, ev5, m5, hq5, hevd5, -, -, -, -, -, -⟩ |
              ⟨s5, ev5, hq5, hevd5, -, -, -, -, -, -⟩ |
              ⟨s5, ev5, tv, cc5, hq5, -, -, -, hnr5, htg5, hrs5, hcc5, h5out, p5, hp5, hst5, hcs5, hpl5⟩
            · rw [hdis] at hevd5
              simp at hevd5
            · rw [hdis] at hevd5
              simp at hevd5
            · obtain ⟨sc, evc, hqc5, -, -, -, hnrc, htgc, hrsc, pc, hpc, hstc, hcsc⟩ :=
                cancel_checkpoint_cancelled env.now s5 p5 hp5 (by simp [hpl5])
              rw [pipeline_split env (submissionStore req t) rfl rfl]
              simp only [tryBody, runFlow, hq1, hq2, hc1, hqc, hq3, hc2,
                hqc2, hq4, hc3, hqc3, hq5, hc5, hqc5]
              refine ⟨?_, ?_, ?_, ?_, ?_⟩
              · simp [hpc, hstc, hcsc, hcs5]
              · simp [hrsc, hrs5, hrs4, hrs3, hrs2, hrs1, submissionStore]
              · simp only [extTags_append, htg1, htg2, htg3, htg4, htg5,
                  htgc]
                simp [extTags]
              · simp only [noResultWrite_append, hnr1, hnr2, hnr3, hnr4,
                  hnr5, hnrc]
                simp [noResultWrite]
              all_goals
                intro hmem
                have hmt := extCall_mem_extTags _ _ hmem
                simp only [extTags_append, htg1, htg2, htg3, htg4, htg5,
                  htgc] at hmt
                simp [extTags] at hmt
      · intro now2 s2x p2x hp2x hcomp2
        simp [cancel_date_plan, setProgress, hp2x]

/-- C5 witness: the amended claim instantiated at the concrete
cancel-between-step-2-and-3 environment and at a concrete completed
store. -/
theorem C5_cancellation_between_stages_witness :
    c5env.cancel1 = false ∧ c5env.cancel2 = true
    ∧ c5doneStore.progress = some { initial_progress 0 with
        status := JobStatus.complete, current_step := 6,
        overall_progress := 100, results_embedded := true,
        final_date_plan_embedded := some { success := true } }
    ∧ ((process_dual_profile_pipeline c5env (submissionStore c1req 0)).1.progress.map
        fun p => (p.status, p.current_step)) = some (JobStatus.cancelled, 2)
    ∧ (cancel_date_plan 7 c5doneStore).1.result = c5doneStore.result :=
  ⟨rfl, rfl, rfl,
   ((C5_cancellation_between_stages c5env c1req 0 .valid .valid
      rfl (by decide) rfl rfl (by decide) (by decide)).2.1 c1ea c1eb
      rfl rfl rfl rfl rfl rfl).1,
   ((C5_cancellation_between_stages c5env c1req 0 .valid .valid
      rfl (by decide) rfl rfl (by decide) (by decide)).2.2.2.2 7 c5doneStore _
      rfl rfl).1⟩

/-- C6 counterexample: the submission supplies location "Rotterdam", but
the context attached to the stage-1a output (and to every later stage
output) is the normalized copy with location "rotterdam" — not bit-identical
to the caller's value. -/
theorem C6_counterexample :
    c1req.context.location = some "Rotterdam"
    ∧ Event.storeStep "1a" (some (normalize_context c1req.context)) ∈ runC1.2
    ∧ (normalize_context c1req.context).location = "rotterdam"
    ∧ ("rotterdam" : String) ≠ "Rotterdam" := by
  decide

/-- C6 (amended): every stage output stored by the context container
carries one and the same context — the normalized form of the submission
context (fields lower-cased and stripped, `duration` stripped only,
null/invalid fields defaulted); when the submitted context is already in
normalized form, that round-tripped context is bit-identical to the
submitted field values. -/
theorem C6_context_roundtrip_normalized (env : Env) (req : ReqRecord) (t : Nat) :
    storeCtxOK (normalize_context req.context)
      (process_dual_profile_pipeline env (submissionStore req t)).2
    ∧ (∀ c : SubmittedCtx, ∀ l tod se du dt : String,
        c = { location := some l, time_of_day := some tod,
              season := some se, duration := some du,
              date_type := some dt } →
        pyStrip (pyLower l) = l → pyStrip (pyLower tod) = tod →
        pyStrip (pyLower se) = se → pyStrip du = du →
        pyStrip (pyLower dt) = dt →
        ¬ (l = "" ∨ l = "unknown" ∨ l = "none") →
        normalize_context c = { location := l, time_of_day := tod,
                                season := se, duration := du,
                                date_type := dt }) :=
  ⟨(pipeline_trace_master env req t).2.2,
   fun c l tod se du dt hc h1 h2 h3 h4 h5 h6 =>
     normalize_context_preserves c l tod se du dt hc h1 h2 h3 h4 h5 h6⟩

/-- C6 witness: an already-normalized context round-trips bit-identically,
and the store-context invariant at the concrete run. -/
theorem C6_context_roundtrip_normalized_witness :
    storeCtxOK (normalize_context c1req.context) runC1.2
    ∧ normalize_context
        { location := some "rotterdam", time_of_day := some "morning",
          season := some "summer", duration := some "full day",
          date_type := some "first_date" }
        = { location := "rotterdam", time_of_day := "morning",
            season := "summer", duration := "full day",
            date_type := "first_date" } :=
  ⟨(C6_context_roundtrip_normalized c1env c1req 0).1,
   (C6_context_roundtrip_normalized c1env c1req 0).2 _
     "rotterdam" "morning" "summer" "full day" "first_date" rfl
     (by decide) (by decide) (by decide) (by decide) (by decide)
     (by decide)⟩

/-- C7: when a Progress Document exists, `get_date_plan_progress` resolves
the result with exactly this precedence — for status `complete`: the
embedded copy when `results_embedded` is set and an embedded result is
present; otherwise the stored Result Document only when it exists and its
`success` field is truthy; otherwise `final_results_available = false` with
`results_source = "corrupted"`; and for any status other than `complete`,
`final_results_available` is false. -/
theorem C7_result_resolution (now : Nat) (s : Store) (p : Progress)
    (hp : s.progress = some p) :
    ∃ q, (get_date_plan_progress now s).1 = some q
    ∧ (p.status = JobStatus.complete →
        ((p.results_embedded = true ∧ p.final_date_plan_embedded.isSome = true) →
            q.final_results_available = some true
            ∧ q.complete_date_plan = p.final_date_plan_embedded
            ∧ q.results_source = some "embedded_in_progress")
        ∧ (¬ (p.results_embedded = true ∧ p.final_date_plan_embedded.isSome = true) →
            (∀ r, s.result = some r → r.success = true →
              q.final_results_available = some true
              ∧ q.complete_date_plan = some r
              ∧ q.results_source = some "redis_fallback")
            ∧ ((s.result = none ∨ ∃ r, s.result = some r ∧ r.success = false) →
              q.final_results_available = some false
              ∧ q.results_source = some "corrupted")))
    ∧ (¬ p.status = JobStatus.complete → q.final_results_available = some false) := by
  simp only [get_date_plan_progress, hp]
  refine ⟨_, rfl, ?_, ?_⟩
  · intro hcomp
    constructor
    · intro hemb
      obtain ⟨he1, he2⟩ := hemb
      obtain ⟨r, hr⟩ := Option.isSome_iff_exists.mp he2
      simp [hcomp, he1, hr]
    · intro hnemb
      constructor
      · intro r hr hsucc
        by_cases hps : p.status = JobStatus.processing
        · simp [hps] at hcomp
        · rcases hb : p.results_embedded with _ | _
          · simp [hcomp, hb, hr, hsucc]
          · have h2 : p.final_date_plan_embedded.isSome = false := by
              rcases hopt : p.final_date_plan_embedded with _ | v
              · rfl
              · exact absurd ⟨by simp [hb], by simp [hopt]⟩ hnemb
            rcases hopt : p.final_date_plan_embedded with _ | v
            · simp [hcomp, hb, hopt, hr, hsucc]
            · rw [hopt] at h2
              simp at h2
      · intro hres
        rcases hb : p.results_embedded with _ | _
        · rcases hres with hres | ⟨r, hr, hrs⟩
          · simp [hcomp, hb, hres]
          · simp [hcomp, hb, hr, hrs]
        · have h2 : p.final_date_plan_embedded = none := by
            rcases hopt : p.final_date_plan_embedded with _ | v
            · rfl
            · exact absurd ⟨by simp [hb], by simp [hopt]⟩ hnemb
          rcases hres with hres | ⟨r, hr, hrs⟩
          · simp [hcomp, hb, h2, hres]
          · simp [hcomp, hb, h2, hr, hrs]
  · intro hncomp
    by_cases hps : p.status = JobStatus.processing <;>
      simp [hncomp, hps]

/-- C7 witness: a complete job whose embedded copy is missing and whose
stored Result Document is an error result resolves to the corrupted
state. -/
theorem C7_result_resolution_witness :
    c7store.progress = some { initial_progress 0 with
      status := JobStatus.complete, current_step := 6,
      overall_progress := 100 }
    ∧ ∃ q, (get_date_plan_progress 9 c7store).1 = some q
        ∧ q.final_results_available = some false
        ∧ q.results_source = some "corrupted" := by
  refine ⟨rfl, ?_⟩
  obtain ⟨q, hq, hcompl, _⟩ := C7_result_resolution 9 c7store _ rfl
  refine ⟨q, hq, ?_⟩
  have h := (hcompl rfl).2 (by decide)
  exact (h.2 (Or.inr ⟨{ success := false }, rfl, rfl⟩))

/-- C8: for every environment and submission, across successive Progress
Document writes whose status is `processing`, neither `current_step` nor
`overall_progress` ever decreases. -/
theorem C8_progress_monotonic (env : Env) (req : ReqRecord) (t : Nat) :
    monoPairs (procPairs
      (process_dual_profile_pipeline env (submissionStore req t)).2) = true :=
  (pipeline_trace_master env req t).1

/-- C9: every Progress Document write of a job run — the per-stage updates
and the Qloo-visibility updates at steps 2 and 5 included — carries at most
8 cultural previews, and whenever `update_redis_progress` appends an entry
it keeps exactly the most recent 8 of the appended list. -/
theorem C9_previews_bounded (env : Env) (req : ReqRecord) (t : Nat) :
    previewsOK (process_dual_profile_pipeline env (submissionStore req t)).2 = true
    ∧ (∀ now a s p c, s.progress = some p → a.cultural_preview = some c →
        ((update_redis_progress now a s).1.progress.map
          fun q => q.cultural_previews)
          = some (lastN 8 (p.cultural_previews ++ [c]))) :=
  ⟨(pipeline_trace_master env req t).2.1,
   fun now a s p c hp hc => update_previews_cap now a s p c hp hc⟩

/-- C9 witness: the cap exercised on a store already holding 8 previews —
the ninth append keeps only the last 8. -/
theorem C9_previews_bounded_witness :
    fullPreviewStore.progress = some { initial_progress 0 with
      cultural_previews := eightPreviews }
    ∧ uArgs.cultural_preview = some "preview nine"
    ∧ ((update_redis_progress 3 uArgs fullPreviewStore).1.progress.map
        fun q => q.cultural_previews)
        = some (lastN 8 (eightPreviews ++ ["preview nine"])) :=
  ⟨rfl, rfl,
   (C9_previews_bounded c1env c1req 0).2 3 uArgs fullPreviewStore _
     "preview nine" rfl rfl⟩

/-- C10: when the Request Record is absent (expired or never written), the
invocation acquires and releases the lock, reads the missing record, and
returns: the Progress Document and the Result Document slots are untouched,
so a Progress status of `starting` stays `starting` until TTL expiry. -/
theorem C10_missing_request_noop (env : Env) (s : Store)
    (hc : s.completed = false) (hl : s.lock = false)
    (hr : s.request = none) :
    (process_dual_profile_pipeline env s).1.progress = s.progress
    ∧ (process_dual_profile_pipeline env s).1.result = s.result
    ∧ (process_dual_profile_pipeline env s).2 =
        [Event.acquireLock, Event.readRequest, Event.releaseLock] := by
  simp [process_dual_profile_pipeline, tryBody, runFlow, seg_setup,
    hc, hl, hr]

/-- C10 witness: a store holding only a starting Progress Document. -/
theorem C10_missing_request_noop_witness :
    ({ progress := some (initial_progress 0) } : Store).completed = false
    ∧ ({ progress := some (initial_progress 0) } : Store).lock = false
    ∧ ({ progress := some (initial_progress 0) } : Store).request = none
    ∧ (process_dual_profile_pipeline c1env
        { progress := some (initial_progress 0) }).1.progress
        = some (initial_progress 0)
    ∧ (process_dual_profile_pipeline c1env
        { progress := some (initial_progress 0) }).2 =
        [Event.acquireLock, Event.readRequest, Event.releaseLock] :=
  ⟨rfl, rfl, rfl,
   (C10_missing_request_noop c1env _ rfl rfl rfl).1,
   (C10_missing_request_noop c1env _ rfl rfl rfl).2.2⟩

end Aimor
